import Mathlib

/-!
Verification of the ai-mayhem pipeline core against its specification.

This file gives a shallow embedding, in Lean 4, of the parts of the source
repository that the verified claims are about:

* the three-layer SQLite store (`data_model.py`, `json_storage.py`);
* the cursor-staleness scheduler (`nodes/planner.py` with `nodes/config.py`);
* the brief gate and emission path (`nodes/brief.py`);
* the token-budget reduction algorithm (`nodes/brief_utils.py`);
* the analyzer signals (`nodes/analyze.py`);
* the provider router (`real_apis/provider_router.py`).

Conventions of the embedding:

* Python dicts are insertion-ordered association lists (`List (String × α)`);
  `dictSet` updates in place (keeping the key's position) or appends, exactly
  as CPython dicts do.
* Python floats are modelled as exact rationals (`ℚ`); machine rounding is out
  of scope of the claims, which are about the fixed-point formulas themselves.
* SQLite tables are lists of row records; `INSERT OR REPLACE` on a primary key
  deletes every row with that key and appends the new row (`upsertBy`).
* External library calls that the repository does not define (`json.loads`,
  `json.dumps` on opaque payloads) are oracle parameters of the embedded
  functions, so theorems quantify over their behaviour.
* Wall-clock reads (`datetime.now()`, `time.time()`) are explicit parameters.
-/

/-! ## Python dict and set model -/

/-- Lookup in an insertion-ordered association list (Python `d.get(k)` /
`d[k]`): the first binding of the key wins. -/
def dictLookup : List (String × α) → String → Option α
  | [], _ => none
  | p :: ps, k => if p.1 == k then some p.2 else dictLookup ps k

/-- Python `k in d` membership test. -/
def dictMem (d : List (String × α)) (k : String) : Bool :=
  d.any (fun p => p.1 == k)

/-- Python `d[k] = v`: update the key's binding in place if it exists (keeping
its position), otherwise append at the end — the insertion-order semantics of
CPython dicts. -/
def dictSet : List (String × α) → String → α → List (String × α)
  | [], k, v => [(k, v)]
  | p :: ps, k, v => if p.1 == k then (k, v) :: ps else p :: dictSet ps k v

/-- Python `s.add(x)` on a set, modelled as a duplicate-free list in insertion
order; the source only ever observes membership and cardinality of its sets. -/
def setInsert (l : List String) (s : String) : List String :=
  if l.contains s then l else l ++ [s]

/-- Python `s.startswith(pre)`, as a character-list comparison. -/
def strStartsWith (s pre : String) : Bool :=
  pre.data.isPrefixOf s.data

/-- Python `s.lower()`, as a character-list map (the provider names and env
values it is applied to are ASCII). -/
def strToLower (s : String) : String :=
  ⟨s.data.map Char.toLower⟩

/-- Drop the first `n` characters of `s` (used for `split(":", 1)[1]` on
`wallet:`-keyed cursor names). -/
def strDrop (s : String) (n : Nat) : String :=
  ⟨s.data.drop n⟩

theorem dictLookup_dictSet_self (d : List (String × α)) (k : String) (v : α) :
    dictLookup (dictSet d k v) k = some v := by
  induction d with
  | nil => simp [dictSet, dictLookup]
  | cons p ps ih =>
    by_cases hp : p.1 = k
    · simp [dictSet, dictLookup, hp]
    · have hp' : (p.1 == k) = false := beq_eq_false_iff_ne.mpr hp
      simp [dictSet, dictLookup, hp', ih]

theorem dictLookup_dictSet_ne (d : List (String × α)) (k k' : String) (v : α)
    (h : k' ≠ k) : dictLookup (dictSet d k v) k' = dictLookup d k' := by
  have hkk : (k == k') = false := beq_eq_false_iff_ne.mpr (fun he => h he.symm)
  induction d with
  | nil => simp [dictSet, dictLookup, hkk]
  | cons p ps ih =>
    by_cases hp : p.1 = k
    · have hp2 : (p.1 == k) = true := beq_iff_eq.mpr hp
      have hp' : (p.1 == k') = false := beq_eq_false_iff_ne.mpr (hp ▸ fun he => h he.symm)
      simp [dictSet, dictLookup, hp2, hp', hkk]
    · have hp2 : (p.1 == k) = false := beq_eq_false_iff_ne.mpr hp
      cases hq : p.1 == k' <;> simp [dictSet, dictLookup, hp2, hq, ih]

/-! ## Python JSON values

`PyVal` models the JSON-serializable Python values the store traffics in
(payloads, provenance dicts, event `value` maps). The stdlib functions
`json.dumps` / `json.loads` are not part of the repository; embedded store
operations take them as oracle parameters (`dumps : PyVal → String`,
`parse : String → Option PyVal` where `none` models `json.JSONDecodeError`). -/

inductive PyVal where
  | pynull
  | pybool (b : Bool)
  | pyint (n : Int)
  | pystr (s : String)
  | pylist (xs : List PyVal)
  | pydict (kvs : List (String × PyVal))
deriving Repr

/-- Python dict item assignment `data[k] = v` on an arbitrary value: succeeds
only on dicts; on any other value CPython raises `TypeError`, modelled by
`none`. -/
def pySetItem : PyVal → String → PyVal → Option PyVal
  | .pydict kvs, k, v => some (.pydict (dictSet kvs k v))
  | _, _, _ => none

/-! ## Three-layer store (`data_model.py`, `json_storage.py`)

SQLite tables are lists of rows. All three save operations issue
`INSERT OR REPLACE ... (pk, ...) VALUES (...)` against a `TEXT PRIMARY KEY`
column; SQLite's `REPLACE` conflict resolution deletes every row conflicting
on the primary key and appends the new row, which `upsertBy` mirrors. Row
order is irrelevant to the claims (queries order by `timestamp`). -/

/-- Generic `INSERT OR REPLACE` against a primary key projection. -/
def upsertBy (key : α → String) (r : α) (t : List α) : List α :=
  t.filter (fun x => key x != key r) ++ [r]

/-- Layer 1 row: `json_cache_scratch(id PRIMARY KEY, source, raw_json, provenance)`
(timestamps defaulted by SQLite are irrelevant to the claims). -/
structure ScratchRow where
  id : String
  source : String
  rawJson : String
  provenance : Option String
deriving Repr, DecidableEq

/-- Layer 2 row: `normalized_events(event_id PRIMARY KEY, wallet, event_type,
pool, value, timestamp, source_id, chain)`. -/
structure EventRow where
  event_id : String
  wallet : Option String
  event_type : String
  pool : Option String
  value : String
  timestamp : Int
  source_id : String
  chain : String
deriving Repr, DecidableEq

/-- Layer 3 row: `artifacts(artifact_id PRIMARY KEY, timestamp, summary_text,
signals, next_watchlist, source_ids, event_count, summary_text_llm, llm_struct,
llm_validation, llm_model, llm_tokens)`. -/
structure ArtifactRow where
  artifact_id : String
  timestamp : Int
  summary_text : String
  signals : String
  next_watchlist : String
  source_ids : String
  event_count : Int
  summary_text_llm : Option String
  llm_struct : Option String
  llm_validation : Option String
  llm_model : Option String
  llm_tokens : Option Int
deriving Repr, DecidableEq

/-- The `NormalizedEvent` dataclass (`data_model.py:38`). -/
structure NormalizedEvent where
  event_id : String
  wallet : Option String
  event_type : String
  pool : Option String
  value : PyVal
  timestamp : Int
  source_id : String
  chain : String := "base"
deriving Repr

/-- The `Artifact` dataclass (`data_model.py:51`): note the watchlist field is
named `next_watchlist`; there is no `discovered_pools` field. -/
structure ArtifactRec where
  artifact_id : String
  timestamp : Int
  summary_text : String
  signals : PyVal
  next_watchlist : List String
  source_ids : List String
  event_count : Int
  summary_text_llm : Option String := none
  llm_struct : Option PyVal := none
  llm_validation : Option PyVal := none
  llm_model : Option String := none
  llm_tokens : Option Int := none
deriving Repr

/-- Python truthiness for the `if artifact.llm_struct` style checks in
`persist_brief`. -/
def pyTruthy : PyVal → Bool
  | .pynull => false
  | .pybool b => b
  | .pyint n => n != 0
  | .pystr s => s != ""
  | .pylist xs => !xs.isEmpty
  | .pydict kvs => !kvs.isEmpty

/-- `ThreeLayerDataModel.save_raw_response` (`data_model.py:164`): dump the
payload and provenance and `INSERT OR REPLACE` by `id`. -/
def save_raw_response (dumps : PyVal → String) (t : List ScratchRow)
    (response_id source : String) (raw_data : PyVal) (provenance : Option PyVal) :
    List ScratchRow :=
  upsertBy ScratchRow.id
    { id := response_id, source := source, rawJson := dumps raw_data,
      provenance := provenance.map dumps } t

/-- `ThreeLayerDataModel.normalize_event` (`data_model.py:212`): dump the
event's `value` and `INSERT OR REPLACE` by `event_id`. -/
def normalize_event (dumps : PyVal → String) (t : List EventRow)
    (e : NormalizedEvent) : List EventRow :=
  upsertBy EventRow.event_id
    { event_id := e.event_id, wallet := e.wallet, event_type := e.event_type,
      pool := e.pool, value := dumps e.value, timestamp := e.timestamp,
      source_id := e.source_id, chain := e.chain } t

/-- `ThreeLayerDataModel.persist_brief` (`data_model.py:338`): dump the JSON
fields (LLM struct fields only when truthy) and `INSERT OR REPLACE` by
`artifact_id`. -/
def persist_brief (dumps : PyVal → String) (dumpsStrs : List String → String)
    (t : List ArtifactRow) (a : ArtifactRec) : List ArtifactRow :=
  upsertBy ArtifactRow.artifact_id
    { artifact_id := a.artifact_id, timestamp := a.timestamp,
      summary_text := a.summary_text, signals := dumps a.signals,
      next_watchlist := dumpsStrs a.next_watchlist,
      source_ids := dumpsStrs a.source_ids, event_count := a.event_count,
      summary_text_llm := a.summary_text_llm,
      llm_struct := match a.llm_struct with
        | some v => if pyTruthy v then some (dumps v) else none
        | none => none,
      llm_validation := match a.llm_validation with
        | some v => if pyTruthy v then some (dumps v) else none
        | none => none,
      llm_model := a.llm_model, llm_tokens := a.llm_tokens } t

/-- `SELECT ... WHERE id = ?` + `fetchone` on the scratch table. -/
def findScratch (t : List ScratchRow) (id : String) : Option ScratchRow :=
  t.find? (fun r => r.id == id)

/-- `DatabaseManager.load_json` (`json_storage.py:140`): missing row gives
`None`; a stored `raw_json` that fails to parse raises `json.JSONDecodeError`,
which is caught, logged and turned into `None`. All exception paths are
caught, so the embedded function is total with no error channel. -/
def load_json (parse : String → Option PyVal) (t : List ScratchRow)
    (id : String) : Option PyVal :=
  match findScratch t id with
  | none => none
  | some row =>
    match parse row.rawJson with
    | some v => some v
    | none => none

/-- `ThreeLayerDataModel.get_raw_response` (`data_model.py:186`): parse the
stored row, merging `_provenance` into the dict when a provenance string is
present; `json.JSONDecodeError` from either parse is caught and gives `None`.
The only uncaught path (`TypeError` when the payload parses to a non-dict and
provenance is present) is the `.error` case. -/
def get_raw_response (parse : String → Option PyVal) (t : List ScratchRow)
    (id : String) : Except String (Option PyVal) :=
  match findScratch t id with
  | none => .ok none
  | some row =>
    match parse row.rawJson with
    | none => .ok none
    | some data =>
      match row.provenance with
      | none => .ok (some data)
      | some p =>
        if p = "" then .ok (some data)   -- `if provenance:` — empty string is falsy
        else
          match parse p with
          | none => .ok none             -- JSONDecodeError from loads(provenance), caught
          | some pv =>
            match pySetItem data "_provenance" pv with
            | some d => .ok (some d)
            | none => .error "TypeError: item assignment on non-dict"

/-! ### Upsert lemmas shared by the store theorems -/

theorem upsertBy_idem (key : α → String) (r : α) (t : List α) :
    upsertBy key r (upsertBy key r t) = upsertBy key r t := by
  unfold upsertBy
  rw [List.filter_append]
  simp [List.filter_filter]

theorem upsertBy_count (key : α → String) (r : α) (t : List α) :
    ((upsertBy key r t).filter (fun x => key x == key r)).length = 1 := by
  unfold upsertBy
  rw [List.filter_append]
  have h1 : (t.filter (fun x => key x != key r)).filter (fun x => key x == key r) = [] := by
    rw [List.filter_filter]
    apply List.filter_eq_nil_iff.mpr
    intro x _
    simp only [Bool.and_eq_true, bne_iff_ne, ne_eq, beq_iff_eq]
    tauto
  simp [h1]

theorem upsertBy_nodup (key : α → String) (r : α) (t : List α)
    (h : (t.map key).Nodup) : ((upsertBy key r t).map key).Nodup := by
  unfold upsertBy
  rw [List.map_append]
  apply List.Nodup.append
  · exact List.Nodup.sublist ((List.filter_sublist t).map key) h
  · simp
  · intro a ha hb
    simp only [List.map_cons, List.map_nil, List.mem_singleton] at hb
    subst hb
    rcases List.mem_map.mp ha with ⟨x, hx, hkx⟩
    rcases List.mem_filter.mp hx with ⟨_, hxf⟩
    simp only [bne_iff_ne, ne_eq] at hxf
    exact hxf hkx

/-! ## Scheduler / planner (`nodes/planner.py`, constants from `nodes/config.py`)

`BUDGET_DAILY` is read from the environment (default 5.0), so it is a field of
the planner's environment; the staleness thresholds are compile-time constants
in `config.py`. Cursor timestamps are integers throughout the source
(`set_cursor` stores ints, `get_cursor` returns the stored int), so cursor
dicts map names to `Int`. -/

def CURSOR_STALE_WALLET : Int := 2 * 3600
def CURSOR_STALE_LP : Int := 6 * 3600
def CURSOR_STALE_EXPLORE : Int := 24 * 3600

/-- Environment of one planner invocation: configuration plus the persisted
cursors table read through `json_storage.get_cursor`. -/
structure PlannerEnv where
  budgetDaily : ℚ
  monitoredWallets : List String
  dbCursors : String → Option Int

/-- The slice of the LangGraph state dict the planner reads. -/
structure PlannerState where
  spentToday : ℚ
  cursors : List (String × Int)

/-- The planner's observable outcome: the returned state fields plus the
`set_cursor` writes it issued (audit of persistence effects). -/
structure PlannerResult where
  status : String
  selectedAction : Option String
  targetWallet : Option String
  cursors : List (String × Int)
  setCursorWrites : List (String × Int)
deriving Repr, DecidableEq

/-- Lines 48–54: merge persisted wallet cursors for monitored wallets that are
not already in the state dict. -/
def mergeWalletCursors (env : PlannerEnv) (cs : List (String × Int)) :
    List (String × Int) :=
  env.monitoredWallets.foldl
    (fun cs w =>
      let key := "wallet:" ++ w
      if dictMem cs key then cs
      else
        match env.dbCursors key with
        | some ts => dictSet cs key ts
        | none => cs)
    cs

/-- Lines 56–61: merge persisted `lp` and `explore_metrics` cursors. -/
def mergeOtherCursors (env : PlannerEnv) (cs : List (String × Int)) :
    List (String × Int) :=
  ["lp", "explore_metrics"].foldl
    (fun cs name =>
      if dictMem cs name then cs
      else
        match env.dbCursors name with
        | some ts => dictSet cs name ts
        | none => cs)
    cs

/-- One iteration of the seeding loop (lines 70–79): seed `wallet:<w>` to 0
and record the `set_cursor` write, unless the key is already present. -/
def seedStep (acc : List (String × Int) × List (String × Int)) (w : String) :
    List (String × Int) × List (String × Int) :=
  let key := "wallet:" ++ w
  if dictMem acc.1 key then acc
  else (dictSet acc.1 key 0, acc.2 ++ [(key, 0)])

/-- Lines 63–79: seed wallet cursors to 0 — only when NO `wallet:*` cursor
exists at all (in state or database) and there are monitored wallets. Returns
the cursors dict together with the `set_cursor` writes issued. -/
def seedWalletCursors (env : PlannerEnv) (cs : List (String × Int)) :
    List (String × Int) × List (String × Int) :=
  let walletCursors := cs.filter (fun p => strStartsWith p.1 "wallet:")
  if walletCursors.isEmpty && !env.monitoredWallets.isEmpty then
    env.monitoredWallets.foldl seedStep (cs, [])
  else (cs, [])

/-- Lines 86–103: the first cursor entry, in dict insertion order, with a
`wallet:` key stale by more than `CURSOR_STALE_WALLET`. (The source also
guards `cursor_ts is not None`; cursor values are always ints in the store, so
the embedding's value type has no `None`.) -/
def firstStaleWallet (cs : List (String × Int)) (now : Int) :
    Option (String × Int) :=
  cs.find? (fun p => strStartsWith p.1 "wallet:" && decide (now - p.2 > CURSOR_STALE_WALLET))

/-- The cursors dict after the two merge steps (lines 48–61), before seeding. -/
def plannerPreSeedCursors (env : PlannerEnv) (st : PlannerState) :
    List (String × Int) :=
  mergeOtherCursors env (mergeWalletCursors env st.cursors)

/-- The cursors dict and `set_cursor` writes after merging and seeding
(lines 48–79). -/
def plannerSeeded (env : PlannerEnv) (st : PlannerState) :
    List (String × Int) × List (String × Int) :=
  seedWalletCursors env (plannerPreSeedCursors env st)

/-- `planner_node` (`nodes/planner.py:20`): budget gate first, then wallet /
lp / explore staleness in strict order. `now` is `datetime.now().timestamp()`.
For a key of the form `wallet:<addr>` the source's `cursor_key.split(":", 1)[1]`
is the string after the first colon, i.e. `drop 7`. -/
def planner_node (env : PlannerEnv) (now : Int) (st : PlannerState) :
    PlannerResult :=
  if st.spentToday ≥ env.budgetDaily then
    -- `return {**state, "status": "capped"}`: cursors untouched, nothing written
    { status := "capped", selectedAction := none, targetWallet := none,
      cursors := st.cursors, setCursorWrites := [] }
  else
    let seeded := plannerSeeded env st
    let cs := seeded.1
    match firstStaleWallet cs now with
    | some p =>
      { status := "working", selectedAction := some "wallet_recon",
        targetWallet := some (strDrop p.1 7), cursors := cs,
        setCursorWrites := seeded.2 }
    | none =>
      if now - ((dictLookup cs "lp").getD 0) > CURSOR_STALE_LP then
        { status := "working", selectedAction := some "lp_recon",
          targetWallet := none, cursors := cs, setCursorWrites := seeded.2 }
      else if now - ((dictLookup cs "explore_metrics").getD 0) > CURSOR_STALE_EXPLORE then
        { status := "working", selectedAction := some "explore_metrics",
          targetWallet := none, cursors := cs, setCursorWrites := seeded.2 }
      else
        { status := "completed", selectedAction := none, targetWallet := none,
          cursors := cs, setCursorWrites := seeded.2 }

/-! ## Brief gate and emission (`nodes/brief.py`, constants from `nodes/config.py`) -/

def BRIEF_COOLDOWN : Int := 6 * 3600
def BRIEF_THRESHOLD_EVENTS : Int := 5

/-- The literal `0.6` as a reduced fraction (kernel-evaluable, unlike the
scientific literal). `ratPointSix_eq` checks it is `0.6`. -/
def ratPointSix : ℚ := ⟨3, 5, by norm_num, by norm_num⟩

/-- The literal `0.5` as a reduced fraction. -/
def ratPointFive : ℚ := ⟨1, 2, by norm_num, by norm_num⟩

theorem ratPointSix_eq : ratPointSix = 0.6 := by
  have h : ratPointSix = Rat.divInt 3 5 := Rat.mk'_eq_divInt
  rw [h, Rat.divInt_eq_div]
  norm_num

theorem ratPointFive_eq : ratPointFive = 0.5 := by
  have h : ratPointFive = Rat.divInt 1 2 := Rat.mk'_eq_divInt
  rw [h, Rat.divInt_eq_div]
  norm_num

def BRIEF_THRESHOLD_SIGNAL : ℚ := ratPointSix

/-- The slice of the LangGraph state dict the brief node reads. Signal values
are the analyzer's floats (exact rationals here). -/
structure BriefState where
  lastBriefAt : Int
  last24hCounts : List (String × Int)
  signals : List (String × ℚ)
  topPools : List String
  sourceIds : List String
  selectedAction : Option String
  rawMetricsTopPool : Option String  -- `state["raw_data"]["metrics"]["key_values"]["top_pool"]`

/-- Python `max(general_signals.values())` over a dict in insertion order
(lines 62–63); the caller guards non-emptiness. -/
def pyMax : List ℚ → ℚ
  | [] => 0
  | x :: xs => xs.foldl max x

/-- Line 59: `total_events = sum(event_counts.values())`. -/
def briefTotalEvents (st : BriefState) : Int :=
  (st.last24hCounts.map (·.2)).sum

/-- Lines 62–63: maximum of the general signals present in the state
(`volume_signal`, `activity_signal`, `concentration_signal`), 0.0 when none
is present. -/
def briefMaxGeneralSignal (st : BriefState) : ℚ :=
  let general := st.signals.filter
    (fun p => p.1 == "volume_signal" || p.1 == "activity_signal" || p.1 == "concentration_signal")
  if general.isEmpty then 0 else pyMax (general.map (·.2))

/-- Line 66: `signals.get("pool_activity_score", 0.0)`. -/
def briefLpActivityScore (st : BriefState) : ℚ :=
  (dictLookup st.signals "pool_activity_score").getD 0

/-- The emission decision as a pure function of the four gate quantities (the
specification's reading of lines 41 and 69): cooldown elapsed AND any of the
three activity conditions. -/
def briefGateDecision (elapsed : Int) (totalEvents : Int) (maxGeneral poolScore : ℚ) :
    Bool :=
  decide (elapsed ≥ BRIEF_COOLDOWN) &&
    (decide (totalEvents ≥ BRIEF_THRESHOLD_EVENTS) ||
     decide (maxGeneral ≥ BRIEF_THRESHOLD_SIGNAL) || decide (poolScore ≥ ratPointSix))

/-! ### Python dataclass keyword-call semantics

`brief_node` constructs the `Artifact` dataclass with keyword arguments
(lines 205–218). CPython binds keywords by parameter name: a keyword that is
not a parameter, or a missing parameter without a default, raises `TypeError`. -/

/-- Parameter list of a callable: name and whether it has a default. -/
def pyKwCallCheck (params : List (String × Bool)) (kwargs : List String) :
    Except String Unit :=
  match kwargs.find? (fun k => !(params.any (fun p => p.1 == k))) with
  | some k => .error ("TypeError: unexpected keyword argument " ++ k)
  | none =>
    match params.find? (fun p => !p.2 && !(kwargs.contains p.1)) with
    | some p => .error ("TypeError: missing required argument " ++ p.1)
    | none => .ok ()

/-- Signature of `Artifact.__init__` generated from the dataclass
(`data_model.py:51`): seven required fields, five LLM fields with defaults. -/
def artifactParams : List (String × Bool) :=
  [("artifact_id", false), ("timestamp", false), ("summary_text", false),
   ("signals", false), ("next_watchlist", false), ("source_ids", false),
   ("event_count", false), ("summary_text_llm", true), ("llm_struct", true),
   ("llm_validation", true), ("llm_model", true), ("llm_tokens", true)]

/-- Keywords passed at the `Artifact(...)` call in `brief_node`
(`nodes/brief.py:205`): it passes `discovered_pools`, which is not a field,
and never passes the required `next_watchlist`. -/
def briefArtifactKwargs : List String :=
  ["artifact_id", "timestamp", "summary_text", "signals", "discovered_pools",
   "source_ids", "event_count", "summary_text_llm", "llm_struct",
   "llm_validation", "llm_model", "llm_tokens"]

/-- Observable outcome of one `brief_node` run. -/
structure BriefNodeResult where
  briefSkipped : Bool
  reason : Option String
  briefText : Option String
  discoveredPools : Option (List String)
  lastBriefAt : Option Int    -- `some now` only when a brief was emitted
  status : String
  persisted : List ArtifactRec
deriving Repr

/-- Lines 126–142: the discovered-pools suggestion list. -/
def briefDiscoveredPools (st : BriefState) : List String :=
  let pools := if st.topPools.isEmpty then [] else st.topPools.take 2
  let lpSignals := st.signals.filter
    (fun p => strStartsWith p.1 "net_liquidity" || strStartsWith p.1 "lp_churn" ||
      strStartsWith p.1 "pool_activity")
  let pools :=
    if !lpSignals.isEmpty && decide ((dictLookup lpSignals "pool_activity_score").getD 0 > ratPointFive) then
      if st.topPools.isEmpty then pools
      else pools ++ (st.topPools.take 2).map (fun p => p ++ " (LP)")
    else pools
  match st.rawMetricsTopPool with
  | some tp => if tp ≠ "" && !pools.contains tp then pools ++ [tp] else pools
  | none => pools

/-- `brief_node` (`nodes/brief.py:26`). `now` is `datetime.now().timestamp()`
(read twice in the source; the two reads are modelled as equal). The
deterministic brief text (lines 83–144) is pure string formatting whose value
no claim observes; it is abstracted by the `briefText` oracle parameter. The
LLM block (lines 146–197) catches every exception and only computes the five
optional LLM fields, abstracted by the `llmFields` oracle. The `Artifact(...)`
construction is the keyword call checked by `pyKwCallCheck`; the `.ok` branch
of that check is unreachable (see `brief_artifact_call_fails`) and its record
is a placeholder that is never observed. -/
def brief_node (now : Int) (briefText : String)
    (llmFields : Option String × Option String × Option String × Option String × Option Int)
    (st : BriefState) : Except String BriefNodeResult :=
  if now - st.lastBriefAt < BRIEF_COOLDOWN then
    .ok { briefSkipped := true, reason := some "cooldown", briefText := none,
          discoveredPools := none, lastBriefAt := none, status := "memory",
          persisted := [] }
  else
    let totalEvents := briefTotalEvents st
    let maxGeneral := briefMaxGeneralSignal st
    let lpScore := briefLpActivityScore st
    if totalEvents < BRIEF_THRESHOLD_EVENTS ∧ maxGeneral < BRIEF_THRESHOLD_SIGNAL ∧
        ¬(lpScore ≥ ratPointSix) then
      .ok { briefSkipped := true, reason := some "low_activity", briefText := none,
            discoveredPools := none, lastBriefAt := none, status := "memory",
            persisted := [] }
    else
      let pools := briefDiscoveredPools st
      match pyKwCallCheck artifactParams briefArtifactKwargs with
      | .error e => .error e
      | .ok _ =>
        -- Dead branch: `pyKwCallCheck` on these arguments always errors.
        .ok { briefSkipped := false, reason := none, briefText := some briefText,
              discoveredPools := some pools, lastBriefAt := some now,
              status := "memory",
              persisted := [{ artifact_id := "brief_" ++ toString now,
                              timestamp := now, summary_text := briefText,
                              signals := .pydict [], next_watchlist := [],
                              source_ids := st.sourceIds,
                              event_count := totalEvents,
                              summary_text_llm := llmFields.1,
                              llm_struct := none, llm_validation := none,
                              llm_model := llmFields.2.2.2.1,
                              llm_tokens := llmFields.2.2.2.2 }] }

/-! ## Analyzer (`nodes/analyze.py`) -/

/-- Stable insert for descending order: skip past strictly greater keys, so
elements with equal keys keep their original relative order. -/
def insertDescBy [LinearOrder β] (key : α → β) (a : α) : List α → List α
  | [] => [a]
  | b :: bs => if key b > key a then b :: insertDescBy key a bs else a :: b :: bs

/-- Python's stable `sorted(l, key=key, reverse=True)`. -/
def sortDescBy [LinearOrder β] (key : α → β) (l : List α) : List α :=
  l.foldr (insertDescBy key) []

/-- `collections.Counter` over a list of keys: counts in first-occurrence
(insertion) order. -/
def counterAdd (c : List (String × Int)) (k : String) : List (String × Int) :=
  match dictLookup c k with
  | some n => dictSet c k (n + 1)
  | none => c ++ [(k, 1)]

def pyCounter (ks : List String) : List (String × Int) :=
  ks.foldl counterAdd []

/-- `Counter.most_common(n)`: items sorted by count descending, ties in
insertion order (Python's sort is stable), truncated to `n`. -/
def mostCommon (c : List (String × Int)) (n : Nat) : List (String × Int) :=
  (sortDescBy (·.2) c).take n

/-- A raw provider event dict as the analyzer reads it. The embedding covers
raw events whose fields have the types the pipeline produces (e.g. a
provenance dict whose `source_id`, when present, is a string; integer
`lp_tokens_delta`). `Option` is Python's missing-key/`None`. -/
structure RawEvt where
  kind : Option String := none
  typ : Option String := none        -- the `type` key
  pool : Option String := none
  wallet : Option String := none
  timestamp : Option Int := none
  txHash : Option String := none
  usd : Option ℚ := none
  direction : Option String := none
  details : Option (List (String × PyVal)) := none
  amounts : Option PyVal := none
  chain : Option String := none
  provenance : Option (List (String × PyVal)) := none
  tokenAddress : Option String := none   -- `token_address`
  rawCovalentTo : Option String := none  -- `raw.covalent_tx.to_address`
deriving Repr

/-- Python `a or b` on optional strings (`None` and `""` are falsy). -/
def pyOrStr : Option String → Option String → Option String
  | some s, b => if s = "" then b else some s
  | none, b => b

/-- A value in the analyzer's signals dict: float, int, or the
`new_pools_touched_24h` list. -/
inductive AnalyzeSignal where
  | q (x : ℚ)
  | i (n : Int)
  | strs (l : List String)
deriving Repr, DecidableEq

/-- Analyzer output: the keys the node adds to the state. The empty-events
early return does not set `normalized_events`/`source_ids`, hence the
`Option`. -/
structure AnalyzeResult where
  last24hCounts : List (String × Int)
  topPools : List String
  signals : List (String × AnalyzeSignal)
  status : String
  normalizedEvents : Option (List NormalizedEvent)
  sourceIds : Option (List String)

/-- Default source id for an event: `worker_source_ids[0]` when non-empty,
else a timestamp-derived id (`nodes/analyze.py:47`). -/
def analyzeDefaultSourceId (workerSourceIds : List String) (now : Int) : String :=
  match workerSourceIds with
  | s :: _ => s
  | [] => "event_" ++ toString now

/-- `event.get("provenance", {}).get("source_id", default)`
(`nodes/analyze.py:47`); covers provenance dicts whose `source_id`, when
present, is a string. -/
def analyzeSourceId (e : RawEvt) (workerSourceIds : List String) (now : Int) : String :=
  match e.provenance with
  | some kvs =>
    match dictLookup kvs "source_id" with
    | some (.pystr s) => s
    | _ => analyzeDefaultSourceId workerSourceIds now
  | none => analyzeDefaultSourceId workerSourceIds now

/-- The `value_dict` built for each normalized event (`nodes/analyze.py:51`):
amounts, chain, provenance, plus `details` when that dict is truthy. -/
def analyzeValueDict (e : RawEvt) : List (String × PyVal) :=
  let base := [("amounts", e.amounts.getD (.pydict [])),
               ("chain", .pystr (e.chain.getD "base")),
               ("provenance", .pydict (e.provenance.getD []))]
  match e.details with
  | some d => if d.isEmpty then base else base ++ [("details", .pydict d)]
  | none => base

/-- LP-specific signals (`nodes/analyze.py:99`), computed only when there is
at least one `lp_add`/`lp_remove` event in the 24h window. -/
def analyzeLpSignals (lpEvents : List RawEvt) : List (String × AnalyzeSignal) :=
  if lpEvents.isEmpty then []
  else
    let adds : Int := (lpEvents.filter (fun e => e.kind == some "lp_add")).length
    let removes : Int := (lpEvents.filter (fun e => e.kind == some "lp_remove")).length
    let uniqueLps :=
      (lpEvents.foldl
        (fun acc e =>
          match e.wallet with
          | some w => if w = "" then acc else setInsert acc w
          | none => acc) []).length
    let churn : ℚ := (uniqueLps : ℚ) / (lpEvents.length : ℚ)
    let poolActivity : ℚ := min ((lpEvents.length : ℚ) / 5) 1
    let sums := lpEvents.foldl
      (fun (acc : Int × Int) e =>
        match dictLookup (e.details.getD []) "lp_tokens_delta" with
        | some (PyVal.pyint n) =>
          if n = 0 then acc
          else if e.kind == some "lp_add" then (acc.1 + n.natAbs, acc.2)
          else (acc.1, acc.2 + n.natAbs)
        | _ => acc)
      (0, 0)
    [("net_liquidity_delta_24h", .i (adds - removes)),
     ("lp_churn_rate_24h", .q churn),
     ("pool_activity_score", .q poolActivity),
     ("net_liquidity_value", .i (sums.1 - sums.2))]

/-- Wallet-recon signals (`nodes/analyze.py:131`): the signed USD sum with its
mixed `kind`/`type`/`direction` conventions, and the distinct pools touched
(a Python set; the embedding fixes first-occurrence order, which no claim
observes). -/
def analyzeWalletSignals (recent : List RawEvt) : List (String × AnalyzeSignal) :=
  let netLpUsd : ℚ := recent.foldl
    (fun acc e =>
      match e.usd with
      | none => acc
      | some u =>
        let et := pyOrStr e.kind e.typ
        if (et == some "lp_add" || et == some "swap") && !(e.direction == some "out") then
          acc + u
        else if et == some "lp_remove" && e.direction == some "out" then acc - u
        else acc)
    0
  let pools := recent.foldl
    (fun acc e =>
      match pyOrStr e.pool (pyOrStr e.tokenAddress e.rawCovalentTo) with
      | some p =>
        if p ≠ "" ∧ p ≠ "unknown" ∧ p ≠ "0x0000000000000000000000000000000000000000" then
          setInsert acc p
        else acc
      | none => acc)
    []
  [("net_lp_usd_24h", .q netLpUsd), ("new_pools_touched_24h", .strs pools)]

/-- The trailing-24h window filter (`nodes/analyze.py:34`): events whose
`timestamp` (default 0) is at least `now - 24h`. -/
def analyzeRecent (now : Int) (events : List RawEvt) : List RawEvt :=
  events.filter (fun e => decide (e.timestamp.getD 0 ≥ now - 24 * 3600))

/-- `analyze_node` (`nodes/analyze.py:14`). `now` stands for both wall-clock
reads (`datetime.now()` for the 24h cutoff and `time.time()` for id
defaults). Each normalized event is persisted to Layer 2 through
`normalize_event`; `normalizedEvents` records them in persistence order. -/
def analyze_node (now : Int) (workerSourceIds : List String)
    (selectedAction : Option String) (events : List RawEvt) : AnalyzeResult :=
  if events.isEmpty then
    { last24hCounts := [], topPools := [], signals := [], status := "completed",
      normalizedEvents := none, sourceIds := none }
  else
    let recent := analyzeRecent now events
    let sourceIds0 := workerSourceIds.foldl setInsert []
    let sourceIds := recent.foldl
      (fun acc e => setInsert acc (analyzeSourceId e workerSourceIds now)) sourceIds0
    let normalizedEvents : List NormalizedEvent := recent.map (fun e =>
      { event_id := e.txHash.getD ("event_" ++ toString now),
        wallet := e.wallet,
        event_type := e.kind.getD "unknown",
        pool := e.pool,
        value := .pydict (analyzeValueDict e),
        timestamp := e.timestamp.getD now,
        source_id := analyzeSourceId e workerSourceIds now,
        chain := e.chain.getD "base" })
    let eventCounts := pyCounter (recent.map (fun e => e.kind.getD "unknown"))
    let poolCounts := pyCounter (recent.map (fun e => e.pool.getD "unknown"))
    let topPools := (mostCommon poolCounts 5).map (·.1)
    let totalEvents := recent.length
    let volumeSignal : ℚ := min ((totalEvents : ℚ) / 10) 1
    let activitySignal : ℚ := min ((eventCounts.length : ℚ) / 3) 1
    let concentrationSignal : ℚ :=
      match topPools with
      | [] => 0
      | t :: _ =>
        1 - (if totalEvents > 0 then (((dictLookup poolCounts t).getD 0 : ℚ) / (totalEvents : ℚ)) else 0)
    let lpEvents := recent.filter
      (fun e => e.kind == some "lp_add" || e.kind == some "lp_remove")
    let walletSignals :=
      if selectedAction == some "wallet_recon" then analyzeWalletSignals recent else []
    { last24hCounts := eventCounts,
      topPools := topPools,
      signals :=
        [("volume_signal", .q volumeSignal),
         ("activity_signal", .q activitySignal),
         ("concentration_signal", .q concentrationSignal),
         ("total_events_24h", .i totalEvents)] ++
        analyzeLpSignals lpEvents ++ walletSignals,
      status := "briefing",
      normalizedEvents := some normalizedEvents,
      sourceIds := some sourceIds }

/-! ## Token estimation and event reduction (`nodes/brief_utils.py`)

`estimate_tokens` only uses the LENGTH of `json.dumps(...)` output, so the
embedding computes those lengths exactly, for the default CPython encoder
(`ensure_ascii=True`, separators `", "` and `": "`). Events here carry the six
fields `estimate_tokens` serializes; `value` maps are string-to-int dicts (the
subspace of payloads the claims quantify over — Python ints serialize exactly
as their decimal digits). -/

/-- Length contributed by one character inside a CPython `json.dumps` string
literal: printable ASCII is itself; quote, backslash and the short escapes are
2; other control and all non-ASCII characters become `\uXXXX` (a surrogate
pair, 12 chars, beyond the BMP). -/
def pyCharEscLen (c : Char) : Nat :=
  if c = '"' ∨ c = '\\' then 2
  else if c = '\n' ∨ c = '\t' ∨ c = '\r' ∨ c.toNat = 8 ∨ c.toNat = 12 then 2
  else if c.toNat < 0x20 ∨ c.toNat > 0x7e then (if c.toNat ≤ 0xffff then 6 else 12)
  else 1

/-- Length of the JSON string literal for `s`, quotes included. -/
def pyStrLitLen (s : String) : Nat :=
  2 + (s.data.map pyCharEscLen).sum

/-- Length of the JSON rendering of a Python int (decimal digits, `-` sign). -/
def pyIntLitLen (n : Int) : Nat :=
  (toString n).length

/-- Length of a JSON object given the rendered length of each value:
braces, `", "` separators and `": "` after each key. -/
def pyDictLen (entries : List (String × Nat)) : Nat :=
  if entries.isEmpty then 2
  else 2 + (entries.map (fun p => pyStrLitLen p.1 + 2 + p.2)).sum + 2 * (entries.length - 1)

/-- Length of a JSON array given the rendered length of each element. -/
def pyListLen (xs : List Nat) : Nat :=
  if xs.isEmpty then 2 else 2 + xs.sum + 2 * (xs.length - 1)

/-- Length of `null` / a JSON string for an optional string field. -/
def pyOptStrLitLen : Option String → Nat
  | none => 4
  | some s => pyStrLitLen s

/-- An event as `estimate_tokens` and `reduce_events` see it: the
`NormalizedEvent` fields they read, with a string-to-int `value` map. -/
structure NEvent where
  event_id : String
  wallet : Option String
  event_type : String
  pool : Option String
  value : List (String × Int)
  timestamp : Int
deriving Repr, DecidableEq

/-- A value in the rollups/signals dict passed through `reduce_events`:
an int signal or the `reduction_info` dict it installs. -/
structure ReductionInfo where
  original_count : Nat
  reduced_count : Nat
  unique_wallets : Nat
  unique_pools : Nat
  outliers_kept : Nat
deriving Repr, DecidableEq

inductive SigVal where
  | int (n : Int)
  | info (r : ReductionInfo)
deriving Repr, DecidableEq

/-- Rendered length of one signals-dict value. -/
def sigValJsonLen : SigVal → Nat
  | .int n => pyIntLitLen n
  | .info r =>
    pyDictLen
      [("original_count", pyIntLitLen r.original_count),
       ("reduced_count", pyIntLitLen r.reduced_count),
       ("unique_wallets", pyIntLitLen r.unique_wallets),
       ("unique_pools", pyIntLitLen r.unique_pools),
       ("outliers_kept", pyIntLitLen r.outliers_kept)]

/-- Length of `json.dumps` of the six-key dict built per event in
`estimate_tokens` (`nodes/brief_utils.py:18`). -/
def eventJsonLen (e : NEvent) : Nat :=
  pyDictLen
    [("event_id", pyStrLitLen e.event_id),
     ("wallet", pyOptStrLitLen e.wallet),
     ("event_type", pyStrLitLen e.event_type),
     ("pool", pyOptStrLitLen e.pool),
     ("value", pyDictLen (e.value.map (fun p => (p.1, pyIntLitLen p.2)))),
     ("timestamp", pyIntLitLen e.timestamp)]

/-- `estimate_tokens(events, rollups)` (`nodes/brief_utils.py:10`):
`(len(events_json) + len(rollups_json)) // 3 + 100`. -/
def estimate_tokens (events : List NEvent) (rollups : List (String × SigVal)) : Nat :=
  (pyListLen (events.map eventJsonLen) +
   pyDictLen (rollups.map (fun p => (p.1, sigValJsonLen p.2)))) / 3 + 100

/-- `get_usd_value` (`nodes/brief_utils.py:35`): `float(value["usd_value"])`
when present, else 0. -/
def get_usd_value (e : NEvent) : ℚ :=
  match dictLookup e.value "usd_value" with
  | some n => (n : ℚ)
  | none => 0

/-- `is_outlier` (`nodes/brief_utils.py:41`) at its only call site
(`threshold = 2`). The source compares `abs((value - mean) / std) > threshold`
with `std = variance ** 0.5`, guarded by `std > 0`; over exact arithmetic with
a non-negative threshold this is equivalent to the square-free form
`(value - mean)^2 > threshold^2 * variance` guarded by `variance > 0`, which
avoids the irrational square root. -/
def is_outlier (values : List ℚ) (value : ℚ) (threshold : ℚ := 2) : Bool :=
  if values.length < 2 then false
  else
    let mean := values.sum / (values.length : ℚ)
    let variance := ((values.map (fun x => (x - mean) ^ 2)).sum) / (values.length : ℚ)
    if variance > 0 then decide ((value - mean) ^ 2 > threshold ^ 2 * variance)
    else false

/-- State of the single pass over `events` in `reduce_events`
(`nodes/brief_utils.py:75`): the wallet/pool sets, the shared first/last dict
keyed by wallet and pool strings, and the `keep_events` id set. -/
structure ReduceScan where
  wallets : List String
  pools : List String
  firstEvents : List (String × NEvent)
  lastEvents : List (String × NEvent)
  keepEvents : List String
deriving Repr

/-- One iteration of the scan loop (`nodes/brief_utils.py:87`): note
`if event.wallet:` / `if event.pool:` are truthiness tests, so empty strings
are skipped like `None`. -/
def reduceScanStep (usdValues : List ℚ) (acc : ReduceScan) (e : NEvent) : ReduceScan :=
  let acc :=
    match e.wallet with
    | some w =>
      if w = "" then acc
      else
        { acc with
          wallets := setInsert acc.wallets w,
          firstEvents :=
            if dictMem acc.firstEvents w then acc.firstEvents
            else dictSet acc.firstEvents w e,
          lastEvents := dictSet acc.lastEvents w e }
    | none => acc
  let acc :=
    match e.pool with
    | some p =>
      if p = "" then acc
      else
        { acc with
          pools := setInsert acc.pools p,
          firstEvents :=
            if dictMem acc.firstEvents p then acc.firstEvents
            else dictSet acc.firstEvents p e,
          lastEvents := dictSet acc.lastEvents p e }
    | none => acc
  if is_outlier usdValues (get_usd_value e) then
    { acc with keepEvents := setInsert acc.keepEvents e.event_id }
  else acc

/-- The greedy second pass (`nodes/brief_utils.py:122`): append non-must-keep
events in sorted order; on the first append that overflows the cap, pop it and
stop. -/
def greedyAdd (signals : List (String × SigVal)) (cap : Nat) :
    List NEvent → List NEvent → List NEvent
  | acc, [] => acc
  | acc, e :: rest =>
    let acc2 := acc ++ [e]
    if estimate_tokens acc2 signals > cap then acc
    else greedyAdd signals cap acc2 rest

/-- The fallback loop (`nodes/brief_utils.py:130`), with an explicit fuel
argument so the recursion is structural (kernel-evaluable). Each iteration
requires more than 10 events and pops exactly one, so a fuel of the list
length can never run out while the loop condition holds; `shrinkLoop` below
supplies it. -/
def shrinkLoopFuel (signals : List (String × SigVal)) (cap : Nat) :
    Nat → List NEvent → List NEvent
  | 0, l => l
  | n + 1, l =>
    if estimate_tokens l signals > cap ∧ 10 < l.length then
      shrinkLoopFuel signals cap n l.dropLast
    else l

/-- `pop()` from the end while the estimate exceeds the cap and more than 10
events remain. -/
def shrinkLoop (signals : List (String × SigVal)) (cap : Nat) (l : List NEvent) :
    List NEvent :=
  shrinkLoopFuel signals cap l.length l

/-- The scan pass of `reduce_events` (`nodes/brief_utils.py:73`). -/
def reduceScan (events : List NEvent) : ReduceScan :=
  events.foldl (reduceScanStep (events.map get_usd_value))
    { wallets := [], pools := [], firstEvents := [], lastEvents := [],
      keepEvents := [] }

/-- The must-keep id set after adding the first/last events per wallet/pool
key to the outlier ids (`nodes/brief_utils.py:106`). -/
def reduceKeepIds (events : List NEvent) : List String :=
  let scan := reduceScan events
  let keep := (scan.firstEvents.map (·.2)).foldl
    (fun k e => setInsert k e.event_id) scan.keepEvents
  (scan.lastEvents.map (·.2)).foldl (fun k e => setInsert k e.event_id) keep

/-- `sorted(events, key=get_usd_value, reverse=True)` (`nodes/brief_utils.py:113`). -/
def reduceSorted (events : List NEvent) : List NEvent :=
  sortDescBy get_usd_value events

/-- The result list before the fallback shrink loop: all must-keep events in
sorted order, then the greedy additions (`nodes/brief_utils.py:114`). -/
def reducePreShrink (events : List NEvent) (signals : List (String × SigVal))
    (tokenCap : Nat) : List NEvent :=
  greedyAdd signals tokenCap
    ((reduceSorted events).filter (fun e => (reduceKeepIds events).contains e.event_id))
    ((reduceSorted events).filter (fun e => !(reduceKeepIds events).contains e.event_id))

/-- The reduced event list (`nodes/brief_utils.py:114` through 131). -/
def reduceResultEvents (events : List NEvent) (signals : List (String × SigVal))
    (tokenCap : Nat) : List NEvent :=
  shrinkLoop signals tokenCap (reducePreShrink events signals tokenCap)

/-- The `reduction_info` record added to the signals (`nodes/brief_utils.py:134`). -/
def reduceInfo (events : List NEvent) (signals : List (String × SigVal))
    (tokenCap : Nat) : ReductionInfo :=
  { original_count := events.length,
    reduced_count := (reduceResultEvents events signals tokenCap).length,
    unique_wallets := (reduceScan events).wallets.length,
    unique_pools := (reduceScan events).pools.length,
    outliers_kept :=
      ((reduceResultEvents events signals tokenCap).filter
        (fun e => (reduceKeepIds events).contains e.event_id)).length }

/-- `reduce_events` (`nodes/brief_utils.py:50`). -/
def reduce_events (events : List NEvent) (signals : List (String × SigVal))
    (tokenCap : Nat) : List NEvent × List (String × SigVal) :=
  if events.isEmpty then ([], signals)
  else if estimate_tokens events signals ≤ tokenCap then (events, signals)
  else
    (reduceResultEvents events signals tokenCap,
     dictSet signals "reduction_info" (.info (reduceInfo events signals tokenCap)))

/-- The LLM-input preparation step of `brief_node` (`nodes/brief.py:160`):
under the `budgeted` policy, when the estimate exceeds the cap, the events and
signals handed to `generate_llm_brief(events=..., rollups=...)` are exactly
`reduce_events`' output. -/
def briefLlmInput (events : List NEvent) (signals : List (String × SigVal))
    (llmInputPolicy : String) (tokenCap : Nat) :
    List NEvent × List (String × SigVal) :=
  if llmInputPolicy == "budgeted" && decide (estimate_tokens events signals > tokenCap) then
    reduce_events events signals tokenCap
  else (events, signals)

/-! ## Provider router (`real_apis/provider_router.py`)

Availability is a pure function of module-import success and API-key presence
(no network call). The per-provider fetches are oracle inputs
(`call : String → Except String FetchResult`, `.error` = the call raised). -/

/-- Environment of a `ProviderRouter` instance. -/
structure RouterEnv where
  importAlchemy : Bool
  importCovalent : Bool
  importBitquery : Bool
  keyAlchemy : Bool      -- ALCHEMY_API_KEY set
  keyCovalent : Bool     -- COVALENT_API_KEY set
  keyBitquery : Bool     -- BITQUERY_ACCESS_TOKEN set
  walletReconSource : String  -- WALLET_RECON_SOURCE, "" when unset

/-- `_detect_available_providers` (`provider_router.py:69`): a dict that
always holds all four provider keys; mock is always available. -/
def detect_available_providers (env : RouterEnv) : List (String × Bool) :=
  [("alchemy", env.importAlchemy && env.keyAlchemy),
   ("covalent", env.importCovalent && env.keyCovalent),
   ("bitquery", env.importBitquery && env.keyBitquery),
   ("mock", true)]

/-- `_build_fallback_chain` (`provider_router.py:110`): available providers in
priority order, then mock as the terminal member. -/
def build_fallback_chain (avail : List (String × Bool)) : List String :=
  (["alchemy", "covalent", "bitquery"].filter
    (fun p => (dictLookup avail p).getD false)) ++ ["mock"]

/-- `get_selected_provider` (`provider_router.py:124`): an explicit
`WALLET_RECON_SOURCE` wins when that provider is available; otherwise the
first provider of the fallback chain (never empty, since mock is appended). -/
def get_selected_provider (env : RouterEnv) : String :=
  let avail := detect_available_providers env
  let chain := build_fallback_chain avail
  let source := strToLower env.walletReconSource
  if source != "" && dictMem avail source && (dictLookup avail source).getD false then
    source
  else
    match chain with
    | p :: _ => p
    | [] => "mock"

/-- A provider response: its events (opaque here; the schema-validation pass
over them only logs) and the optional `provider` tag. -/
structure FetchResult where
  events : List PyVal
  providerTag : Option PyVal
deriving Repr

/-- Lines 188–195: attach `result["provider"] = {name, chain, selected_at,
schema_validated}` when the provider did not set one. -/
def tagResult (r : FetchResult) (p chain : String) (loopTime : Int) : FetchResult :=
  match r.providerTag with
  | some _ => r
  | none =>
    { r with providerTag := some (.pydict
        [("name", .pystr p), ("chain", .pystr chain),
         ("selected_at", .pyint loopTime), ("schema_validated", .pybool true)]) }

/-- The `for provider in self.fallback_chain` loop of `fetch_wallet_activity`
(`provider_router.py:170`). The guard on line 171 is
`provider == selected_provider or (selected_provider not in
self.available_providers)`; when it is false the iteration silently moves on.
A failed call advances the loop (re-raised only for mock); falling off the end
raises `Exception("No providers available in fallback chain")` (line 208). -/
def routerLoop (selected : String) (avail : List (String × Bool))
    (call : String → Except String FetchResult) (chain : String) (loopTime : Int) :
    List String → Except String FetchResult
  | [] => .error "No providers available in fallback chain"
  | p :: rest =>
    if p == selected || !(dictMem avail selected) then
      match call p with
      | .ok r => .ok (tagResult r p chain loopTime)
      | .error e =>
        if p == "mock" then .error e
        else routerLoop selected avail call chain loopTime rest
    else routerLoop selected avail call chain loopTime rest

/-- `ProviderRouter.fetch_wallet_activity` (`provider_router.py:146`). -/
def fetch_wallet_activity (env : RouterEnv)
    (call : String → Except String FetchResult) (chain : String)
    (loopTime : Int) : Except String FetchResult :=
  let avail := detect_available_providers env
  let fb := build_fallback_chain avail
  let selected := get_selected_provider env
  routerLoop selected avail call chain loopTime fb

/-! ## Claims -/

/-! ### C1 -/

/-- Router environment of the failing input: Alchemy and Covalent are both
available (imports succeed, API keys present), no `WALLET_RECON_SOURCE`
override, so the selected provider is `alchemy` and the fallback chain is
`[alchemy, covalent, mock]`. -/
def c1Env : RouterEnv :=
  { importAlchemy := true, importCovalent := true, importBitquery := false,
    keyAlchemy := true, keyCovalent := true, keyBitquery := false,
    walletReconSource := "" }

/-- The provider behaviour of the failing input: Alchemy's fetch raises,
Covalent's (and mock's) succeeds. -/
def c1Call : String → Except String FetchResult :=
  fun p =>
    if p == "alchemy" then .error "Alchemy API error"
    else .ok { events := [], providerTag := none }

/-- Claim C1: with providers `[A(throws), B(throws), C(succeeds)]` plus mock,
`fetch_wallet_activity` is claimed to return the first succeeding provider's
result, tagged with that provider's name, never raising. The code refutes
this: the guard on `provider_router.py:171` —
`provider == selected_provider or (selected_provider not in
self.available_providers)` — is false for every provider other than the
selected one, because `selected_provider` is always one of the four keys of
the `available_providers` dict. So when the selected provider (alchemy) throws,
covalent and mock are skipped and the loop falls through to
`raise Exception("No providers available in fallback chain")`
(`provider_router.py:208`), contradicting the function's own docstring, its
comments ("Try providers in fallback chain until one succeeds", "This should
never happen since mock is always in the chain") and the repository's own test
`test_fallback_chain_execution`. This theorem evaluates the embedded code at
that failing input: covalent would succeed, yet the fetch raises. -/
theorem C1_router_fallback_dead :
    fetch_wallet_activity c1Env c1Call "base" 0
      = .error "No providers available in fallback chain" ∧
    (c1Call "covalent").isOk = true ∧
    build_fallback_chain (detect_available_providers c1Env)
      = ["alchemy", "covalent", "mock"] ∧
    get_selected_provider c1Env = "alchemy" := by
  refine ⟨by rfl, by rfl, by rfl, by rfl⟩

/-! ### C9 -/

/-- The scratch table with every row of a given id removed — the "id absent"
observation point of claim C9. -/
def scratchWithout (t : List ScratchRow) (id : String) : List ScratchRow :=
  t.filter (fun r => r.id != id)

theorem findScratch_scratchWithout (t : List ScratchRow) (id : String) :
    findScratch (scratchWithout t id) id = none := by
  apply List.find?_eq_none.mpr
  intro r hr
  have := (List.mem_filter.mp hr).2
  simpa using this

/-- Claim C9: for every stored id whose `raw_json` column fails to parse as
JSON, `load_json` returns `None` — exactly the same observable result as when
the id is absent — and likewise `get_raw_response` returns `None` without
raising, so at the public read interface a corrupted stored row is
indistinguishable from a missing row. (`load_json` is total with no error
channel at all: every `json.JSONDecodeError` is caught.) -/
theorem C9_corrupt_row_reads_as_missing
    (parse : String → Option PyVal) (t : List ScratchRow) (id : String)
    (row : ScratchRow) (hrow : findScratch t id = some row)
    (hbad : parse row.rawJson = none) :
    load_json parse t id = none ∧
    load_json parse (scratchWithout t id) id = none ∧
    get_raw_response parse t id = .ok none ∧
    get_raw_response parse (scratchWithout t id) id = .ok none := by
  refine ⟨?_, ?_, ?_, ?_⟩
  · simp [load_json, hrow, hbad]
  · simp [load_json, findScratch_scratchWithout]
  · simp [get_raw_response, hrow, hbad]
  · simp [get_raw_response, findScratch_scratchWithout]

/-- A parse oracle and a one-row table with unparseable contents, for the C9
witness. -/
def c9Parse : String → Option PyVal :=
  fun s => if s == "ok" then some (.pydict []) else none

def c9Row : ScratchRow :=
  { id := "resp_1", source := "alchemy", rawJson := "not json",
    provenance := none }

/-- Witness for C9 at a concrete corrupted row. -/
theorem C9_corrupt_row_reads_as_missing_witness :
    load_json c9Parse [c9Row] "resp_1" = none ∧
    load_json c9Parse (scratchWithout [c9Row] "resp_1") "resp_1" = none ∧
    get_raw_response c9Parse [c9Row] "resp_1" = .ok none ∧
    get_raw_response c9Parse (scratchWithout [c9Row] "resp_1") "resp_1" = .ok none :=
  C9_corrupt_row_reads_as_missing c9Parse [c9Row] "resp_1" c9Row (by rfl) (by rfl)

/-! ### C3 -/

/-- Claim C3: all three store layers upsert by primary key — saving the same
record twice with the same `id`/`event_id`/`artifact_id` leaves exactly one
row for that key (the second save is a no-op), and re-saving never introduces
duplicate keys: a table with no duplicate `event_id`s still has none after
`normalize_event`, so re-normalizing the same raw payload never creates a
second row. -/
theorem C3_store_upserts_by_primary_key
    (dumps : PyVal → String) (dumpsStrs : List String → String)
    (s : List ScratchRow) (rid src : String) (raw : PyVal) (prov : Option PyVal)
    (t : List EventRow) (e : NormalizedEvent)
    (a : List ArtifactRow) (art : ArtifactRec) :
    (save_raw_response dumps (save_raw_response dumps s rid src raw prov) rid src raw prov
        = save_raw_response dumps s rid src raw prov ∧
      ((save_raw_response dumps s rid src raw prov).filter
        (fun r => r.id == rid)).length = 1) ∧
    (normalize_event dumps (normalize_event dumps t e) e = normalize_event dumps t e ∧
      ((normalize_event dumps t e).filter
        (fun r => r.event_id == e.event_id)).length = 1 ∧
      ((t.map EventRow.event_id).Nodup →
        ((normalize_event dumps t e).map EventRow.event_id).Nodup)) ∧
    (persist_brief dumps dumpsStrs (persist_brief dumps dumpsStrs a art) art
        = persist_brief dumps dumpsStrs a art ∧
      ((persist_brief dumps dumpsStrs a art).filter
        (fun r => r.artifact_id == art.artifact_id)).length = 1) := by
  refine ⟨⟨?_, ?_⟩, ⟨?_, ?_, ?_⟩, ⟨?_, ?_⟩⟩
  · exact upsertBy_idem ScratchRow.id _ s
  · exact upsertBy_count ScratchRow.id
      { id := rid, source := src, rawJson := dumps raw,
        provenance := prov.map dumps } s
  · exact upsertBy_idem EventRow.event_id _ t
  · exact upsertBy_count EventRow.event_id
      { event_id := e.event_id, wallet := e.wallet, event_type := e.event_type,
        pool := e.pool, value := dumps e.value, timestamp := e.timestamp,
        source_id := e.source_id, chain := e.chain } t
  · intro h
    exact upsertBy_nodup EventRow.event_id _ t h
  · exact upsertBy_idem ArtifactRow.artifact_id _ a
  · exact upsertBy_count ArtifactRow.artifact_id
      { artifact_id := art.artifact_id, timestamp := art.timestamp,
        summary_text := art.summary_text, signals := dumps art.signals,
        next_watchlist := dumpsStrs art.next_watchlist,
        source_ids := dumpsStrs art.source_ids, event_count := art.event_count,
        summary_text_llm := art.summary_text_llm,
        llm_struct := match art.llm_struct with
          | some v => if pyTruthy v then some (dumps v) else none
          | none => none,
        llm_validation := match art.llm_validation with
          | some v => if pyTruthy v then some (dumps v) else none
          | none => none,
        llm_model := art.llm_model, llm_tokens := art.llm_tokens } a

/-- Concrete instances for the C3 witness. -/
def c3Dumps : PyVal → String := fun _ => "{}"
def c3DumpsStrs : List String → String := fun _ => "[]"
def c3Event : NormalizedEvent :=
  { event_id := "0xabc:1", wallet := some "0xW", event_type := "swap",
    pool := some "WETH/USDC", value := .pydict [], timestamp := 100,
    source_id := "resp_1" }
def c3EventTable : List EventRow :=
  [{ event_id := "other", wallet := none, event_type := "metrics", pool := none,
     value := "{}", timestamp := 5, source_id := "resp_0", chain := "base" }]
def c3Artifact : ArtifactRec :=
  { artifact_id := "brief_100", timestamp := 100, summary_text := "s",
    signals := .pydict [], next_watchlist := [], source_ids := ["resp_1"],
    event_count := 1 }

/-- Witness for C3: the double-save is a no-op, exactly one row per key, and
the duplicate-free event table stays duplicate-free, at concrete inputs. -/
theorem C3_store_upserts_by_primary_key_witness :
    ((c3EventTable.map EventRow.event_id).Nodup ∧
      ((normalize_event c3Dumps c3EventTable c3Event).map EventRow.event_id).Nodup) ∧
    normalize_event c3Dumps (normalize_event c3Dumps c3EventTable c3Event) c3Event
      = normalize_event c3Dumps c3EventTable c3Event ∧
    ((save_raw_response c3Dumps [] "resp_1" "alchemy" (.pydict []) none).filter
      (fun r => r.id == "resp_1")).length = 1 ∧
    ((persist_brief c3Dumps c3DumpsStrs [] c3Artifact).filter
      (fun r => r.artifact_id == "brief_100")).length = 1 := by
  have h := C3_store_upserts_by_primary_key c3Dumps c3DumpsStrs
    [] "resp_1" "alchemy" (.pydict []) none c3EventTable c3Event [] c3Artifact
  exact ⟨⟨by decide, h.2.1.2.2 (by decide)⟩, h.2.1.1, h.1.2, h.2.2.2⟩

/-! ### C10 -/

/-- Claim C10: whenever the reduction actually reduces (the input estimate
exceeds the cap and the event list is non-empty), the signals map returned by
`reduce_events` is the input map with a `reduction_info` entry added — a dict
with fields `original_count`, `reduced_count`, `unique_wallets`,
`unique_pools`, `outliers_kept` — every other entry left unchanged; and under
the `budgeted` policy this augmented map is exactly what `brief_node` hands to
`generate_llm_brief` as `rollups`. -/
theorem C10_reduction_info_frame (events : List NEvent)
    (signals : List (String × SigVal)) (cap : Nat)
    (hne : events ≠ []) (hover : estimate_tokens events signals > cap) :
    (∀ k, k ≠ "reduction_info" →
      dictLookup (reduce_events events signals cap).2 k = dictLookup signals k) ∧
    dictLookup (reduce_events events signals cap).2 "reduction_info"
      = some (.info (reduceInfo events signals cap)) ∧
    (reduceInfo events signals cap).original_count = events.length ∧
    (reduceInfo events signals cap).reduced_count
      = (reduce_events events signals cap).1.length ∧
    (reduceInfo events signals cap).unique_wallets = (reduceScan events).wallets.length ∧
    (reduceInfo events signals cap).unique_pools = (reduceScan events).pools.length ∧
    (reduceInfo events signals cap).outliers_kept
      = ((reduce_events events signals cap).1.filter
          (fun e => (reduceKeepIds events).contains e.event_id)).length ∧
    briefLlmInput events signals "budgeted" cap = reduce_events events signals cap := by
  have hempty : events.isEmpty = false := by
    cases events with
    | nil => exact absurd rfl hne
    | cons a l => rfl
  have hle : ¬ estimate_tokens events signals ≤ cap := by omega
  have hred : reduce_events events signals cap
      = (reduceResultEvents events signals cap,
         dictSet signals "reduction_info" (.info (reduceInfo events signals cap))) := by
    simp [reduce_events, hempty, hle]
  refine ⟨?_, ?_, rfl, ?_, rfl, rfl, ?_, ?_⟩
  · intro k hk
    rw [hred]
    exact dictLookup_dictSet_ne signals "reduction_info" k _ hk
  · rw [hred]
    exact dictLookup_dictSet_self signals "reduction_info" _
  · rw [hred]
    rfl
  · rw [hred]
    rfl
  · simp [briefLlmInput, hover, hred]

/-- Concrete input for the C10 witness: a one-event list over the cap. -/
def c10Event : NEvent :=
  { event_id := "x", wallet := some "w", event_type := "swap",
    pool := none, value := [], timestamp := 0 }
def c10Signals : List (String × SigVal) := [("volume_signal", .int 1)]

/-- Witness for C10 at a concrete reducing input: `volume_signal` survives
unchanged, `reduction_info` is added, and the budgeted LLM input is the
reduction's output. -/
theorem C10_reduction_info_frame_witness :
    dictLookup (reduce_events [c10Event] c10Signals 105).2 "volume_signal"
      = some (.int 1) ∧
    dictLookup (reduce_events [c10Event] c10Signals 105).2 "reduction_info"
      = some (.info (reduceInfo [c10Event] c10Signals 105)) ∧
    briefLlmInput [c10Event] c10Signals "budgeted" 105
      = reduce_events [c10Event] c10Signals 105 := by
  have h := C10_reduction_info_frame [c10Event] c10Signals 105
    (by decide) (by decide)
  exact ⟨(h.1 "volume_signal" (by decide)).trans (by decide), h.2.1, h.2.2.2.2.2.2.2⟩

/-! ### C2 -/

/-- Claim C2: the planner decides in strict order. If
`spentToday >= dailyBudgetCap` it returns `capped` immediately — cursors
untouched, nothing written — including at exact equality. Otherwise, on the
merged-and-seeded cursors: the first `wallet:*` entry (in dict order) stale by
more than 2 hours wins as `wallet_recon` for that wallet; else a `lp` cursor
stale by more than 6 hours gives `lp_recon`; else an `explore_metrics` cursor
stale by more than 24 hours gives `explore_metrics`; else no action
(`completed`). -/
theorem C2_planner_strict_priority (env : PlannerEnv) (now : Int)
    (st : PlannerState) :
    (st.spentToday ≥ env.budgetDaily →
      planner_node env now st =
        { status := "capped", selectedAction := none, targetWallet := none,
          cursors := st.cursors, setCursorWrites := [] }) ∧
    (st.spentToday < env.budgetDaily →
      (∀ p, firstStaleWallet (plannerSeeded env st).1 now = some p →
        planner_node env now st =
          { status := "working", selectedAction := some "wallet_recon",
            targetWallet := some (strDrop p.1 7),
            cursors := (plannerSeeded env st).1,
            setCursorWrites := (plannerSeeded env st).2 }) ∧
      (firstStaleWallet (plannerSeeded env st).1 now = none →
        (now - ((dictLookup (plannerSeeded env st).1 "lp").getD 0) > CURSOR_STALE_LP →
          planner_node env now st =
            { status := "working", selectedAction := some "lp_recon",
              targetWallet := none, cursors := (plannerSeeded env st).1,
              setCursorWrites := (plannerSeeded env st).2 }) ∧
        (now - ((dictLookup (plannerSeeded env st).1 "lp").getD 0) ≤ CURSOR_STALE_LP →
          (now - ((dictLookup (plannerSeeded env st).1 "explore_metrics").getD 0)
              > CURSOR_STALE_EXPLORE →
            planner_node env now st =
              { status := "working", selectedAction := some "explore_metrics",
                targetWallet := none, cursors := (plannerSeeded env st).1,
                setCursorWrites := (plannerSeeded env st).2 }) ∧
          (now - ((dictLookup (plannerSeeded env st).1 "explore_metrics").getD 0)
              ≤ CURSOR_STALE_EXPLORE →
            planner_node env now st =
              { status := "completed", selectedAction := none,
                targetWallet := none, cursors := (plannerSeeded env st).1,
                setCursorWrites := (plannerSeeded env st).2 })))) := by
  constructor
  · intro h
    simp [planner_node, h]
  · intro h
    have hneg : ¬ st.spentToday ≥ env.budgetDaily := not_le.mpr h
    refine ⟨?_, ?_⟩
    · intro p hp
      simp [planner_node, hneg, hp]
    · intro hw
      refine ⟨?_, ?_⟩
      · intro hlp
        simp [planner_node, hneg, hw, hlp]
      · intro hlp
        have hlp' : ¬ now - ((dictLookup (plannerSeeded env st).1 "lp").getD 0)
            > CURSOR_STALE_LP := not_lt.mpr hlp
        refine ⟨?_, ?_⟩
        · intro hex
          simp [planner_node, hneg, hw, hlp', hex]
        · intro hex
          have hex' : ¬ now - ((dictLookup (plannerSeeded env st).1 "explore_metrics").getD 0)
              > CURSOR_STALE_EXPLORE := not_lt.mpr hex
          simp [planner_node, hneg, hw, hlp', hex']

/-- C2 witness environment and states: wallet cursor stale by 3h, lp by 8h,
explore by 30h at `now = 200000`; and a state at the exact budget cap. -/
def c2Env : PlannerEnv :=
  { budgetDaily := 5, monitoredWallets := [], dbCursors := fun _ => none }
def c2St : PlannerState :=
  { spentToday := 1,
    cursors := [("wallet:0xabc", 189200), ("lp", 171200), ("explore_metrics", 92000)] }
def c2StCapped : PlannerState :=
  { spentToday := 5, cursors := c2St.cursors }

/-- Witness for C2: at the claim's scenario the planner picks `wallet_recon`
(never `lp_recon`/`explore_metrics`), and at `spentToday = cap = 5.00` it
returns `capped` despite every cursor being stale. -/
theorem C2_planner_strict_priority_witness :
    planner_node c2Env 200000 c2St =
      { status := "working", selectedAction := some "wallet_recon",
        targetWallet := some "0xabc", cursors := c2St.cursors,
        setCursorWrites := [] } ∧
    planner_node c2Env 200000 c2StCapped =
      { status := "capped", selectedAction := none, targetWallet := none,
        cursors := c2StCapped.cursors, setCursorWrites := [] } := by
  constructor
  · have h := ((C2_planner_strict_priority c2Env 200000 c2St).2 (by decide)).1
      ("wallet:0xabc", 189200) (by decide)
    exact h.trans (by decide)
  · exact (C2_planner_strict_priority c2Env 200000 c2StCapped).1 (by decide)

/-! ### C8 -/

/-- C8 counterexample inputs: two monitored wallets, one of which
(`0xaaa`) already has a cursor in the state; `0xbbb` has none, in state or
database. -/
def c8Env : PlannerEnv :=
  { budgetDaily := 5, monitoredWallets := ["0xaaa", "0xbbb"],
    dbCursors := fun _ => none }
def c8St : PlannerState :=
  { spentToday := 0, cursors := [("wallet:0xaaa", 0)] }

/-- Counterexample to claim C8: the claim says every tracked wallet without a
cursor is seeded to 0 and persisted immediately, "regardless of whether other
tracked wallets already have cursors". Here `0xbbb` is monitored and has no
cursor anywhere, yet — because `0xaaa` has one — the planner issues no
`set_cursor` write at all and `0xbbb` never appears in the cursors dict: the
seeding block runs only when the wallet-cursor dict is entirely empty
(`nodes/planner.py:65`, `if not wallet_cursors and monitored_wallets:`). -/
theorem C8_counterexample :
    "0xbbb" ∈ c8Env.monitoredWallets ∧
    dictMem c8St.cursors "wallet:0xbbb" = false ∧
    c8Env.dbCursors "wallet:0xbbb" = none ∧
    (planner_node c8Env 1000000 c8St).setCursorWrites = [] ∧
    dictMem (planner_node c8Env 1000000 c8St).cursors "wallet:0xbbb" = false := by
  refine ⟨by decide, by decide, rfl, by decide, by decide⟩

theorem dictMem_dictSet (d : List (String × α)) (k : String) (v : α)
    (k' : String) : dictMem (dictSet d k v) k' = ((k == k') || dictMem d k') := by
  induction d with
  | nil => simp [dictSet, dictMem]
  | cons p ps ih =>
    by_cases hp : p.1 = k
    · have hp2 : (p.1 == k) = true := beq_iff_eq.mpr hp
      simp only [dictSet, hp2, if_true, dictMem, List.any_cons]
      rw [hp]
      cases hkk : (k == k') <;> simp
    · have hp2 : (p.1 == k) = false := beq_eq_false_iff_ne.mpr hp
      simp only [dictSet, hp2, Bool.false_eq_true, if_neg, not_false_iff,
        dictMem, List.any_cons]
      have ih2 : (dictSet ps k v).any (fun p => p.1 == k')
          = ((k == k') || ps.any (fun p => p.1 == k')) := ih
      rw [ih2]
      cases hb1 : (p.1 == k') <;> cases hb2 : (k == k') <;> simp

/-- Any string of the form `"wallet:" ++ w` starts with `"wallet:"`. -/
theorem strStartsWith_wallet_append (w : String) :
    strStartsWith ("wallet:" ++ w) "wallet:" = true := by
  unfold strStartsWith
  have h : ("wallet:" ++ w).data = "wallet:".data ++ w.data := by
    simp [String.data_append]
  rw [h, List.isPrefixOf_iff_prefix]
  exact List.prefix_append _ _

/-- A seeded key stays seeded (and written) through the rest of the loop. -/
theorem seedFold_established (ws : List String)
    (acc : List (String × Int) × List (String × Int)) (key : String)
    (h1 : dictLookup acc.1 key = some 0) (h2 : (key, 0) ∈ acc.2) :
    dictLookup (ws.foldl seedStep acc).1 key = some 0 ∧
    (key, 0) ∈ (ws.foldl seedStep acc).2 := by
  induction ws generalizing acc with
  | nil => exact ⟨h1, h2⟩
  | cons w ws ih =>
    simp only [List.foldl_cons]
    by_cases hmem : dictMem acc.1 ("wallet:" ++ w) = true
    · have : seedStep acc w = acc := by simp [seedStep, hmem]
      rw [this]
      exact ih acc h1 h2
    · have hmem' : dictMem acc.1 ("wallet:" ++ w) = false := by
        simpa using hmem
      have hstep : seedStep acc w
          = (dictSet acc.1 ("wallet:" ++ w) 0, acc.2 ++ [("wallet:" ++ w, 0)]) := by
        simp [seedStep, hmem']
      rw [hstep]
      apply ih
      · by_cases hk : key = "wallet:" ++ w
        · subst hk
          exact dictLookup_dictSet_self _ _ _
        · rw [dictLookup_dictSet_ne _ _ _ _ hk]
          exact h1
      · exact List.mem_append_left _ h2

/-- Every monitored wallet whose key is absent (or already seeded) when the
loop reaches it ends the loop seeded to 0 with its write recorded. -/
theorem seedFold_seeds (ws : List String)
    (acc : List (String × Int) × List (String × Int)) (w : String)
    (hw : w ∈ ws)
    (hpre : dictMem acc.1 ("wallet:" ++ w) = false ∨
      (dictLookup acc.1 ("wallet:" ++ w) = some 0 ∧ ("wallet:" ++ w, 0) ∈ acc.2)) :
    dictLookup (ws.foldl seedStep acc).1 ("wallet:" ++ w) = some 0 ∧
    ("wallet:" ++ w, 0) ∈ (ws.foldl seedStep acc).2 := by
  induction ws generalizing acc with
  | nil => cases hw
  | cons w' ws ih =>
    simp only [List.foldl_cons]
    rcases List.mem_cons.mp hw with hw1 | hw2
    · -- the loop reaches `w` now
      subst hw1
      rcases hpre with hmem | ⟨h1, h2⟩
      · have hstep : seedStep acc w
            = (dictSet acc.1 ("wallet:" ++ w) 0, acc.2 ++ [("wallet:" ++ w, 0)]) := by
          simp [seedStep, hmem]
        rw [hstep]
        exact seedFold_established ws _ _ (dictLookup_dictSet_self _ _ _)
          (List.mem_append_right _ (List.mem_singleton.mpr rfl))
      · by_cases hmem : dictMem acc.1 ("wallet:" ++ w) = true
        · have : seedStep acc w = acc := by simp [seedStep, hmem]
          rw [this]
          exact seedFold_established ws _ _ h1 h2
        · have hmem' : dictMem acc.1 ("wallet:" ++ w) = false := by simpa using hmem
          have hstep : seedStep acc w
              = (dictSet acc.1 ("wallet:" ++ w) 0, acc.2 ++ [("wallet:" ++ w, 0)]) := by
            simp [seedStep, hmem']
          rw [hstep]
          exact seedFold_established ws _ _ (dictLookup_dictSet_self _ _ _)
            (List.mem_append_left _ h2)
    · -- `w` comes later: one step preserves the disjunctive invariant
      apply ih _ hw2
      rcases hpre with hmem | ⟨h1, h2⟩
      · by_cases hmem' : dictMem acc.1 ("wallet:" ++ w') = true
        · have : seedStep acc w' = acc := by simp [seedStep, hmem']
          rw [this]
          exact Or.inl hmem
        · have hmemf : dictMem acc.1 ("wallet:" ++ w') = false := by simpa using hmem'
          have hstep : seedStep acc w'
              = (dictSet acc.1 ("wallet:" ++ w') 0, acc.2 ++ [("wallet:" ++ w', 0)]) := by
            simp [seedStep, hmemf]
          rw [hstep]
          by_cases hk : ("wallet:" ++ w') = ("wallet:" ++ w)
          · right
            constructor
            · rw [← hk]
              exact dictLookup_dictSet_self _ _ _
            · rw [← hk]
              exact List.mem_append_right _ (List.mem_singleton.mpr rfl)
          · left
            rw [dictMem_dictSet]
            simp [beq_eq_false_iff_ne.mpr hk, hmem]
      · by_cases hmem' : dictMem acc.1 ("wallet:" ++ w') = true
        · have : seedStep acc w' = acc := by simp [seedStep, hmem']
          rw [this]
          exact Or.inr ⟨h1, h2⟩
        · have hmemf : dictMem acc.1 ("wallet:" ++ w') = false := by simpa using hmem'
          have hstep : seedStep acc w'
              = (dictSet acc.1 ("wallet:" ++ w') 0, acc.2 ++ [("wallet:" ++ w', 0)]) := by
            simp [seedStep, hmemf]
          rw [hstep]
          right
          constructor
          · by_cases hk : ("wallet:" ++ w) = ("wallet:" ++ w')
            · rw [hk]
              exact dictLookup_dictSet_self _ _ _
            · rw [dictLookup_dictSet_ne _ _ _ _ hk]
              exact h1
          · exact List.mem_append_left _ h2

/-- Claim C8 as amended: seeding is all-or-nothing, not per-wallet. When the
merged cursors (state plus database) contain no `wallet:*` entry at all and
there are monitored wallets, the planner seeds EVERY monitored wallet's cursor
to 0 and persists each seed immediately (a `set_cursor` write); when any
`wallet:*` cursor already exists, no wallet is seeded — so a wallet newly
added alongside wallets with existing cursors is not seeded (and, since a
seeded wallet has a cursor, no wallet is ever re-seeded on a later tick). -/
theorem C8_seed_amended (env : PlannerEnv) (now : Int) (st : PlannerState)
    (hbudget : st.spentToday < env.budgetDaily) :
    ((plannerPreSeedCursors env st).all
        (fun p => !(strStartsWith p.1 "wallet:")) = true →
      ∀ w ∈ env.monitoredWallets,
        dictLookup (planner_node env now st).cursors ("wallet:" ++ w) = some 0 ∧
        ("wallet:" ++ w, 0) ∈ (planner_node env now st).setCursorWrites) ∧
    ((plannerPreSeedCursors env st).any
        (fun p => strStartsWith p.1 "wallet:") = true →
      (planner_node env now st).setCursorWrites = []) := by
  have hneg : ¬ st.spentToday ≥ env.budgetDaily := not_le.mpr hbudget
  have hcw : (planner_node env now st).cursors = (plannerSeeded env st).1 ∧
      (planner_node env now st).setCursorWrites = (plannerSeeded env st).2 := by
    simp only [planner_node, if_neg hneg]
    split
    · exact ⟨rfl, rfl⟩
    · split_ifs <;> exact ⟨rfl, rfl⟩
  constructor
  · intro hall w hw
    have hfilter : (plannerPreSeedCursors env st).filter
        (fun p => strStartsWith p.1 "wallet:") = [] := by
      apply List.filter_eq_nil_iff.mpr
      intro p hp
      have := List.all_eq_true.mp hall p hp
      simpa using this
    have hmono : env.monitoredWallets.isEmpty = false := by
      cases hm : env.monitoredWallets with
      | nil => rw [hm] at hw; cases hw
      | cons a l => rfl
    have hseed : plannerSeeded env st
        = env.monitoredWallets.foldl seedStep ((plannerPreSeedCursors env st), []) := by
      simp [plannerSeeded, seedWalletCursors, hfilter, hmono]
    have hmemf : dictMem (plannerPreSeedCursors env st) ("wallet:" ++ w) = false := by
      cases hmem : dictMem (plannerPreSeedCursors env st) ("wallet:" ++ w) with
      | false => rfl
      | true =>
        obtain ⟨p, hp, hpk⟩ := List.any_eq_true.mp hmem
        have h1 := List.all_eq_true.mp hall p hp
        rw [beq_iff_eq.mp hpk] at h1
        rw [strStartsWith_wallet_append w] at h1
        cases h1
    have := seedFold_seeds env.monitoredWallets ((plannerPreSeedCursors env st), [])
      w hw (Or.inl hmemf)
    rw [hcw.1, hcw.2, hseed]
    exact this
  · intro hany
    obtain ⟨p, hp, hpk⟩ := List.any_eq_true.mp hany
    have hfilter : ((plannerPreSeedCursors env st).filter
        (fun p => strStartsWith p.1 "wallet:")).isEmpty = false := by
      have hmem : p ∈ (plannerPreSeedCursors env st).filter
          (fun p => strStartsWith p.1 "wallet:") := List.mem_filter.mpr ⟨hp, hpk⟩
      cases hf : (plannerPreSeedCursors env st).filter
          (fun p => strStartsWith p.1 "wallet:") with
      | nil => rw [hf] at hmem; cases hmem
      | cons a l => rfl
    have hseed : plannerSeeded env st = ((plannerPreSeedCursors env st), []) := by
      simp [plannerSeeded, seedWalletCursors, hfilter]
    rw [hcw.2, hseed]

/-- C8 witness inputs: an `lp` cursor exists but no wallet cursor anywhere, so
the all-or-nothing seeding fires for both monitored wallets. -/
def c8SeedEnv : PlannerEnv :=
  { budgetDaily := 5, monitoredWallets := ["0xaaa", "0xbbb"],
    dbCursors := fun _ => none }
def c8SeedSt : PlannerState :=
  { spentToday := 0, cursors := [("lp", 999999)] }

/-- Witness for the amended C8: with no wallet cursor at all, `0xbbb` is
seeded to 0 and the seed persisted; with `0xaaa` already holding a cursor, no
write is issued. -/
theorem C8_seed_amended_witness :
    dictLookup (planner_node c8SeedEnv 1000000 c8SeedSt).cursors
      ("wallet:" ++ "0xbbb") = some 0 ∧
    ("wallet:" ++ "0xbbb", 0) ∈ (planner_node c8SeedEnv 1000000 c8SeedSt).setCursorWrites ∧
    (planner_node c8Env 1000000 c8St).setCursorWrites = [] := by
  have h1 := (C8_seed_amended c8SeedEnv 1000000 c8SeedSt (by decide)).1
    (by decide) "0xbbb" (by decide)
  have h2 := (C8_seed_amended c8Env 1000000 c8St (by decide)).2 (by decide)
  exact ⟨h1.1, h1.2, h2⟩

/-! ### C4 -/

/-- The `Artifact(...)` keyword call in `brief_node` always raises `TypeError`:
`discovered_pools` is not a field of the dataclass. -/
theorem brief_artifact_call_fails :
    pyKwCallCheck artifactParams briefArtifactKwargs
      = .error "TypeError: unexpected keyword argument discovered_pools" := by
  rfl

/-- Claim C4: the brief emission gate is a pure deterministic function of
(elapsed time since last brief, 24h event count, max general signal, pool
activity score) — `briefGateDecision`. The node returns a skip exactly when
the decision is false, with reason `cooldown` when the 6h cooldown has not
passed and `low_activity` otherwise, and a skip writes no artifact. The
boundary values pass: `eventCount == 5` and `maxSignal == 0.6`
(`BRIEF_THRESHOLD_SIGNAL`) both satisfy the gate once the cooldown has
elapsed. -/
theorem C4_brief_gate_pure (now : Int) (bt : String)
    (llm : Option String × Option String × Option String × Option String × Option Int)
    (st : BriefState) :
    (now - st.lastBriefAt < BRIEF_COOLDOWN →
      brief_node now bt llm st = .ok
        { briefSkipped := true, reason := some "cooldown", briefText := none,
          discoveredPools := none, lastBriefAt := none, status := "memory",
          persisted := [] }) ∧
    (now - st.lastBriefAt ≥ BRIEF_COOLDOWN →
      briefTotalEvents st < BRIEF_THRESHOLD_EVENTS →
      briefMaxGeneralSignal st < BRIEF_THRESHOLD_SIGNAL →
      briefLpActivityScore st < ratPointSix →
      brief_node now bt llm st = .ok
        { briefSkipped := true, reason := some "low_activity", briefText := none,
          discoveredPools := none, lastBriefAt := none, status := "memory",
          persisted := [] }) ∧
    ((∃ r, brief_node now bt llm st = .ok r ∧ r.briefSkipped = true) ↔
      briefGateDecision (now - st.lastBriefAt) (briefTotalEvents st)
        (briefMaxGeneralSignal st) (briefLpActivityScore st) = false) ∧
    (∀ r, brief_node now bt llm st = .ok r → r.briefSkipped = true →
      r.persisted = []) ∧
    (∀ e g l, e ≥ BRIEF_COOLDOWN → briefGateDecision e 5 g l = true) ∧
    (∀ e t l, e ≥ BRIEF_COOLDOWN →
      briefGateDecision e t BRIEF_THRESHOLD_SIGNAL l = true) := by
  refine ⟨?_, ?_, ?_, ?_, ?_, ?_⟩
  · intro h
    simp [brief_node, h]
  · intro h1 h2 h3 h4
    have h1' : ¬ now - st.lastBriefAt < BRIEF_COOLDOWN := not_lt.mpr h1
    simp [brief_node, h1', h2, h3, not_le.mpr h4]
  · by_cases hcd : now - st.lastBriefAt < BRIEF_COOLDOWN
    · constructor
      · intro _
        simp [briefGateDecision, not_le.mpr hcd]
      · intro _
        refine ⟨{ briefSkipped := true, reason := some "cooldown", briefText := none,
                  discoveredPools := none, lastBriefAt := none, status := "memory",
                  persisted := [] }, by simp [brief_node, hcd], rfl⟩
    · have hcd' : now - st.lastBriefAt ≥ BRIEF_COOLDOWN := not_lt.mp hcd
      by_cases hsk : briefTotalEvents st < BRIEF_THRESHOLD_EVENTS ∧
          briefMaxGeneralSignal st < BRIEF_THRESHOLD_SIGNAL ∧
          ¬(briefLpActivityScore st ≥ ratPointSix)
      · constructor
        · intro _
          simp [briefGateDecision, not_le.mpr hsk.1, not_le.mpr hsk.2.1, hsk.2.2, hcd']
        · intro _
          refine ⟨{ briefSkipped := true, reason := some "low_activity", briefText := none,
                    discoveredPools := none, lastBriefAt := none, status := "memory",
                    persisted := [] }, by simp [brief_node, hcd, hsk], rfl⟩
      · have hnode : brief_node now bt llm st
            = .error "TypeError: unexpected keyword argument discovered_pools" := by
          simp only [brief_node, if_neg hcd, if_neg hsk, brief_artifact_call_fails]
        constructor
        · rintro ⟨r, hr, -⟩
          rw [hnode] at hr
          cases hr
        · intro hdec
          exfalso
          have htrue : briefGateDecision (now - st.lastBriefAt) (briefTotalEvents st)
              (briefMaxGeneralSignal st) (briefLpActivityScore st) = true := by
            simp only [briefGateDecision, Bool.and_eq_true, Bool.or_eq_true,
              decide_eq_true_eq]
            refine ⟨hcd', ?_⟩
            by_cases ha : briefTotalEvents st < BRIEF_THRESHOLD_EVENTS
            · by_cases hb : briefMaxGeneralSignal st < BRIEF_THRESHOLD_SIGNAL
              · have hcq : briefLpActivityScore st ≥ ratPointSix := by
                  by_contra hq
                  exact hsk ⟨ha, hb, hq⟩
                tauto
              · have := not_lt.mp hb
                tauto
            · have := not_lt.mp ha
              tauto
          rw [htrue] at hdec
          cases hdec
  · intro r hr hsk
    by_cases hcd : now - st.lastBriefAt < BRIEF_COOLDOWN
    · have : brief_node now bt llm st = .ok
          { briefSkipped := true, reason := some "cooldown", briefText := none,
            discoveredPools := none, lastBriefAt := none, status := "memory",
            persisted := [] } := by simp [brief_node, hcd]
      rw [this] at hr
      cases hr
      rfl
    · by_cases hsk2 : briefTotalEvents st < BRIEF_THRESHOLD_EVENTS ∧
          briefMaxGeneralSignal st < BRIEF_THRESHOLD_SIGNAL ∧
          ¬(briefLpActivityScore st ≥ ratPointSix)
      · have : brief_node now bt llm st = .ok
            { briefSkipped := true, reason := some "low_activity", briefText := none,
              discoveredPools := none, lastBriefAt := none, status := "memory",
              persisted := [] } := by simp [brief_node, hcd, hsk2]
        rw [this] at hr
        cases hr
        rfl
      · have : brief_node now bt llm st
            = .error "TypeError: unexpected keyword argument discovered_pools" := by
          simp only [brief_node, if_neg hcd, if_neg hsk2, brief_artifact_call_fails]
        rw [this] at hr
        cases hr
  · intro e g l he
    simp [briefGateDecision, he, BRIEF_THRESHOLD_EVENTS]
  · intro e t l he
    simp [briefGateDecision, he]

/-- C4 witness state: 2 events, volume signal 0, no pool activity. -/
def c4St : BriefState :=
  { lastBriefAt := 0, last24hCounts := [("swap", 2)],
    signals := [("volume_signal", 0)], topPools := [], sourceIds := [],
    selectedAction := none, rawMetricsTopPool := none }

/-- Witness for C4: a cooldown skip, a low-activity skip (both with no
artifact written), and the two boundary values (`eventCount == 5`,
`maxSignal == 0.6` at exactly the 6h cooldown) passing the gate. -/
theorem C4_brief_gate_pure_witness :
    brief_node 10000 "t" (none, none, none, none, none) c4St = .ok
      { briefSkipped := true, reason := some "cooldown", briefText := none,
        discoveredPools := none, lastBriefAt := none, status := "memory",
        persisted := [] } ∧
    brief_node 30000 "t" (none, none, none, none, none) c4St = .ok
      { briefSkipped := true, reason := some "low_activity", briefText := none,
        discoveredPools := none, lastBriefAt := none, status := "memory",
        persisted := [] } ∧
    briefGateDecision 21600 5 0 0 = true ∧
    briefGateDecision 21600 0 BRIEF_THRESHOLD_SIGNAL 0 = true := by
  refine ⟨(C4_brief_gate_pure 10000 "t" (none, none, none, none, none) c4St).1
            (by decide),
          (C4_brief_gate_pure 30000 "t" (none, none, none, none, none) c4St).2.1
            (by decide) (by decide) (by decide) (by decide),
          (C4_brief_gate_pure 0 "t" (none, none, none, none, none) c4St).2.2.2.2.1
            21600 0 0 (by decide),
          (C4_brief_gate_pure 0 "t" (none, none, none, none, none) c4St).2.2.2.2.2
            21600 0 0 (by decide)⟩

/-! ### C5 -/

/-- C5 failing input: the gate passes (cooldown elapsed, 5 events). -/
def c5St : BriefState :=
  { lastBriefAt := 0, last24hCounts := [("swap", 5)], signals := [],
    topPools := [], sourceIds := ["resp_1"], selectedAction := none,
    rawMetricsTopPool := none }

/-- Claim C5: when the gate passes, `brief_node` is claimed to persist exactly
one Artifact carrying the run's `sourceIds` and return
`{briefText, discoveredPools, lastBriefAt: now}`. The code cannot do this for
ANY gate-passing state: at `nodes/brief.py:205` it constructs
`Artifact(..., discovered_pools=discovered_pools, ...)`, but the `Artifact`
dataclass (`data_model.py:51`) has no `discovered_pools` parameter (the field
is `next_watchlist`, which the call never supplies), so CPython raises
`TypeError` before `persist_brief` runs — no artifact is written and no result
is returned. (The repository's own tests construct `Artifact` with
`next_watchlist=...` and expect the node's result to hold `next_watchlist`,
confirming the call site is the slip.) This theorem evaluates the embedded
node at a gate-passing input: the gate decision is true, yet the node raises
instead of persisting. -/
theorem C5_brief_emit_raises_type_error :
    briefGateDecision (21600 - c5St.lastBriefAt) (briefTotalEvents c5St)
      (briefMaxGeneralSignal c5St) (briefLpActivityScore c5St) = true ∧
    brief_node 21600 "brief" (none, none, none, none, none) c5St
      = .error "TypeError: unexpected keyword argument discovered_pools" := by
  exact ⟨by decide, by rfl⟩

/-! ### C7 -/

/-- The kind-counter and pool-counter of the retained 24h window. -/
def analyzeKindCounts (now : Int) (events : List RawEvt) : List (String × Int) :=
  pyCounter ((analyzeRecent now events).map (fun e => e.kind.getD "unknown"))

def analyzePoolCounts (now : Int) (events : List RawEvt) : List (String × Int) :=
  pyCounter ((analyzeRecent now events).map (fun e => e.pool.getD "unknown"))

/-- Claim C7: the analyzer's signals follow the fixed deterministic formulas.
An empty event list returns empty signals, empty counts and status
`completed`; otherwise, over the retained 24h events:
`volumeSignal = min(eventCount / 10, 1)`,
`activitySignal = min(distinctEventTypes / 3, 1)`,
`concentrationSignal = 1 − dominantPoolEventCount / totalEvents` (0 when the
window is empty), and `topPools` are the five most common pools by event
count. -/
theorem C7_analyze_signal_formulas (now : Int) (ws : List String)
    (sa : Option String) (events : List RawEvt) :
    (events = [] → analyze_node now ws sa events =
      { last24hCounts := [], topPools := [], signals := [],
        status := "completed", normalizedEvents := none, sourceIds := none }) ∧
    (events ≠ [] →
      dictLookup (analyze_node now ws sa events).signals "volume_signal"
        = some (.q (min (((analyzeRecent now events).length : ℚ) / 10) 1)) ∧
      dictLookup (analyze_node now ws sa events).signals "activity_signal"
        = some (.q (min (((analyzeKindCounts now events).length : ℚ) / 3) 1)) ∧
      (analyzeRecent now events = [] →
        dictLookup (analyze_node now ws sa events).signals "concentration_signal"
          = some (.q 0)) ∧
      (∀ t ts, (analyze_node now ws sa events).topPools = t :: ts →
        dictLookup (analyze_node now ws sa events).signals "concentration_signal"
          = some (.q (1 - (((dictLookup (analyzePoolCounts now events) t).getD 0 : ℚ)
              / ((analyzeRecent now events).length : ℚ))))) ∧
      (analyze_node now ws sa events).topPools
        = (mostCommon (analyzePoolCounts now events) 5).map (·.1) ∧
      (analyze_node now ws sa events).last24hCounts = analyzeKindCounts now events ∧
      (analyze_node now ws sa events).status = "briefing") := by
  constructor
  · intro h
    subst h
    rfl
  · intro h
    have hempty : events.isEmpty = false := by
      cases events with
      | nil => exact absurd rfl h
      | cons a l => rfl
    simp only [analyze_node, hempty, Bool.false_eq_true, if_neg, not_false_iff]
    refine ⟨?_, ?_, ?_, ?_, ?_, ?_, ?_⟩
    · simp [dictLookup]
    · simp [dictLookup, analyzeKindCounts]
    · intro hrec
      simp [dictLookup, hrec, mostCommon, sortDescBy, pyCounter]
    · intro t ts htop
      have hrecne : analyzeRecent now events ≠ [] := by
        intro hrec
        rw [hrec] at htop
        simp [mostCommon, sortDescBy, pyCounter] at htop
      have hlen : 0 < (analyzeRecent now events).length :=
        List.length_pos.mpr hrecne
      simp only [mostCommon, analyzePoolCounts] at htop ⊢
      simp only [dictLookup]
      simp only [htop]
      simp [dictLookup, hlen, analyzePoolCounts]
    · simp [dictLookup, mostCommon, analyzePoolCounts]
    · simp [analyzeKindCounts]
    · trivial

/-- The claim's scenario: 6 events in the window, 4 on pool A and 2 on
pool B, event types {swap, lp_add}. -/
def c7Events : List RawEvt :=
  [{ kind := some "swap", pool := some "A", timestamp := some 100000 },
   { kind := some "swap", pool := some "A", timestamp := some 99000 },
   { kind := some "lp_add", pool := some "A", timestamp := some 98000 },
   { kind := some "swap", pool := some "A", timestamp := some 97000 },
   { kind := some "lp_add", pool := some "B", timestamp := some 96000 },
   { kind := some "swap", pool := some "B", timestamp := some 95000 }]

/-- Witness for C7: the scenario yields `topPools = [A, B]`,
`volumeSignal = 0.6` and `activitySignal = 2/3 ≈ 0.667`; the empty list gives
the empty result with status `completed`. -/
theorem C7_analyze_signal_formulas_witness :
    (analyze_node 100000 [] none c7Events).topPools = ["A", "B"] ∧
    dictLookup (analyze_node 100000 [] none c7Events).signals "volume_signal"
      = some (.q (3 / 5)) ∧
    dictLookup (analyze_node 100000 [] none c7Events).signals "activity_signal"
      = some (.q (2 / 3)) ∧
    analyze_node 100000 [] none [] =
      { last24hCounts := [], topPools := [], signals := [],
        status := "completed", normalizedEvents := none, sourceIds := none } := by
  have h := (C7_analyze_signal_formulas 100000 [] none c7Events).2
    (by simp [c7Events])
  have hlen : (analyzeRecent 100000 c7Events).length = 6 := by decide
  have hkinds : (analyzeKindCounts 100000 c7Events).length = 2 := by decide
  have htop : (analyze_node 100000 [] none c7Events).topPools = ["A", "B"] := by
    rw [h.2.2.2.2.1]
    decide
  refine ⟨htop, ?_, ?_,
    (C7_analyze_signal_formulas 100000 [] none ([] : List RawEvt)).1 rfl⟩
  · rw [h.1, hlen]
    congr 1
    congr 1
    rw [min_eq_left (by norm_num : ((6 : ℕ) : ℚ) / 10 ≤ 1)]
    norm_num
  · rw [h.2.1, hkinds]
    congr 1
    congr 1
    rw [min_eq_left (by norm_num : ((2 : ℕ) : ℚ) / 3 ≤ 1)]
    norm_num

/-! ### C6 -/

theorem mem_insertDescBy [LinearOrder β] (key : α → β) (x a : α) (l : List α) :
    a ∈ insertDescBy key x l ↔ a = x ∨ a ∈ l := by
  induction l with
  | nil => simp [insertDescBy]
  | cons b bs ih =>
    by_cases hc : key b > key x
    · simp only [insertDescBy, if_pos hc, List.mem_cons, ih]
      tauto
    · simp only [insertDescBy, if_neg hc, List.mem_cons]

theorem mem_sortDescBy [LinearOrder β] (key : α → β) (a : α) (l : List α) :
    a ∈ sortDescBy key l ↔ a ∈ l := by
  induction l with
  | nil => simp [sortDescBy]
  | cons b bs ih =>
    unfold sortDescBy at ih ⊢
    simp only [List.foldr_cons, mem_insertDescBy, ih, List.mem_cons]

/-- The greedy pass only ever appends to its accumulator. -/
theorem greedyAdd_append (signals : List (String × SigVal)) (cap : Nat)
    (rest : List NEvent) : ∀ acc : List NEvent,
    ∃ t, greedyAdd signals cap acc rest = acc ++ t := by
  induction rest with
  | nil =>
    intro acc
    exact ⟨[], by simp [greedyAdd]⟩
  | cons e rest ih =>
    intro acc
    simp only [greedyAdd]
    split
    · exact ⟨[], by simp⟩
    · obtain ⟨t, ht⟩ := ih (acc ++ [e])
      exact ⟨e :: t, by rw [ht]; simp⟩

/-- The fallback shrink loop stops only when the estimate fits or at most 10
events remain (with sufficient fuel). -/
theorem shrinkLoopFuel_bound (s : List (String × SigVal)) (c : Nat) :
    ∀ (n : Nat) (l : List NEvent), l.length ≤ n →
    estimate_tokens (shrinkLoopFuel s c n l) s ≤ c ∨
      (shrinkLoopFuel s c n l).length ≤ 10 := by
  intro n
  induction n with
  | zero =>
    intro l hl
    exact Or.inr (by simp [shrinkLoopFuel]; omega)
  | succ n ih =>
    intro l hl
    rw [shrinkLoopFuel]
    split
    · next hcond =>
      apply ih
      rw [List.length_dropLast]
      omega
    · next hcond =>
      rcases not_and_or.mp hcond with h | h
      · exact Or.inl (not_lt.mp h)
      · exact Or.inr (by omega)

theorem shrinkLoop_bound (s : List (String × SigVal)) (c : Nat) :
    ∀ (n : Nat) (l : List NEvent), l.length ≤ n →
    estimate_tokens (shrinkLoop s c l) s ≤ c ∨ (shrinkLoop s c l).length ≤ 10 := by
  intro n l _
  exact shrinkLoopFuel_bound s c l.length l le_rfl

/-- The shrink loop is a no-op when the list already fits the cap. -/
theorem shrinkLoop_noop (s : List (String × SigVal)) (c : Nat) (l : List NEvent)
    (h : estimate_tokens l s ≤ c) : shrinkLoop s c l = l := by
  unfold shrinkLoop
  cases hn : l.length with
  | zero => rfl
  | succ n =>
    rw [shrinkLoopFuel]
    rw [if_neg]
    intro hcond
    exact absurd hcond.1 (not_lt.mpr h)

/-- Claim C6 as amended. The reduction (a) returns its input unchanged when
the token estimate is already within the cap; (b) always ends with an
estimate within the cap UNLESS at most 10 events remain (the fallback loop
`while ... and len(result_events) > 10` stops popping at 10, so a small
must-keep set can still exceed the cap — the unqualified bound in the claim is
false, see the counterexample); and (c) when reduction runs and the fallback
shrink does not fire, every must-keep event — the z-score > 2 outliers plus
the first/last event per wallet/pool key, and in particular a
maximal-USD event whenever it is must-keep — survives into the output. The
single highest-USD event is NOT retained unconditionally (counterexample: a
lone event that is not must-keep is dropped by the greedy pass). Determinism
holds trivially: the embedding is a pure function of its input. -/
theorem C6_reduction_amended (events : List NEvent)
    (signals : List (String × SigVal)) (cap : Nat) :
    (estimate_tokens events signals ≤ cap →
      reduce_events events signals cap = (events, signals)) ∧
    (estimate_tokens (reduce_events events signals cap).1 signals ≤ cap ∨
      (reduce_events events signals cap).1.length ≤ 10) ∧
    (estimate_tokens events signals > cap → events ≠ [] →
      estimate_tokens (reducePreShrink events signals cap) signals ≤ cap →
      ∀ e ∈ events, (reduceKeepIds events).contains e.event_id →
        e ∈ (reduce_events events signals cap).1) := by
  refine ⟨?_, ?_, ?_⟩
  · intro h
    unfold reduce_events
    split
    · next he =>
      rw [List.isEmpty_iff.mp he]
    · simp [h]
  · unfold reduce_events
    split
    · simp
    · split
      · next h => exact Or.inl h
      · unfold reduceResultEvents
        exact shrinkLoop_bound signals cap
          (reducePreShrink events signals cap).length _ le_rfl
  · intro hover hne hpre e he hkeep
    have hempty : events.isEmpty = false := by
      cases events with
      | nil => exact absurd rfl hne
      | cons a l => rfl
    have hle : ¬ estimate_tokens events signals ≤ cap := by omega
    have hred1 : (reduce_events events signals cap).1
        = reduceResultEvents events signals cap := by
      unfold reduce_events
      rw [if_neg (by simp [hempty]), if_neg hle]
    rw [hred1]
    unfold reduceResultEvents
    rw [shrinkLoop_noop signals cap _ hpre]
    unfold reducePreShrink
    obtain ⟨t, ht⟩ := greedyAdd_append signals cap
      ((reduceSorted events).filter (fun e => !(reduceKeepIds events).contains e.event_id))
      ((reduceSorted events).filter (fun e => (reduceKeepIds events).contains e.event_id))
    rw [ht]
    apply List.mem_append_left
    apply List.mem_filter.mpr
    refine ⟨?_, hkeep⟩
    unfold reduceSorted
    exact (mem_sortDescBy get_usd_value e events).mpr he

/-- A lone must-keep event (its wallet makes it first/last) whose JSON alone
exceeds a cap of 110 tokens: the fallback loop never pops below 11 events, so
the bound fails. -/
def c6BoundEvent : NEvent :=
  { event_id := "e1", wallet := some "w", event_type := "swap",
    pool := none, value := [], timestamp := 0 }

/-- A lone event with no wallet/pool: not must-keep, so the greedy pass drops
it as the overflow event — the single highest-USD event is not retained. -/
def c6DropEvent : NEvent :=
  { event_id := "e2", wallet := none, event_type := "swap",
    pool := none, value := [], timestamp := 0 }

/-- Counterexample to claim C6 as stated. Left: a reduced set whose token
estimate (134) still exceeds the cap (110), though the input was over the cap
(so the "or equals the original" escape does not apply). Right: an input
whose single (hence highest-USD) event is absent from the output. -/
theorem C6_reduction_counterexample :
    (estimate_tokens [c6BoundEvent] [] > 110 ∧
     (reduce_events [c6BoundEvent] [] 110).1 = [c6BoundEvent] ∧
     estimate_tokens (reduce_events [c6BoundEvent] [] 110).1 [] > 110) ∧
    (estimate_tokens [c6DropEvent] [] > 110 ∧
     (∀ x ∈ [c6DropEvent], get_usd_value x ≤ get_usd_value c6DropEvent) ∧
     (reduce_events [c6DropEvent] [] 110).1 = []) := by
  exact ⟨⟨by decide, by decide, by decide⟩, ⟨by decide, by decide, by decide⟩⟩

/-- C6 witness inputs: a small under-cap list, and a two-event list where the
must-keep event survives reduction. -/
def c6SmallEvent : NEvent :=
  { event_id := "s", wallet := none, event_type := "swap",
    pool := none, value := [], timestamp := 0 }
def c6d1 : NEvent :=
  { event_id := "a", wallet := some "w", event_type := "t",
    pool := none, value := [], timestamp := 0 }
def c6d2 : NEvent :=
  { event_id := "b", wallet := none, event_type := "t",
    pool := none, value := [], timestamp := 0 }

theorem c6_is_outlier_zeros : is_outlier [0, 0] 0 = false := by
  norm_num [is_outlier]

theorem c6_usd_d1 : get_usd_value c6d1 = 0 := rfl

theorem c6_usd_d2 : get_usd_value c6d2 = 0 := rfl

theorem c6d1_id : c6d1.event_id = "a" := rfl

theorem c6d2_id : c6d2.event_id = "b" := rfl

theorem c6_scan :
    reduceScan [c6d1, c6d2]
      = { wallets := ["w"], pools := [], firstEvents := [("w", c6d1)],
          lastEvents := [("w", c6d1)], keepEvents := [] } := by
  simp [reduceScan, reduceScanStep, get_usd_value, dictLookup,
    c6_is_outlier_zeros, setInsert, dictMem, dictSet, c6d1, c6d2]

theorem c6_keep : reduceKeepIds [c6d1, c6d2] = ["a"] := by
  simp [reduceKeepIds, c6_scan, setInsert, c6d1_id]

theorem c6_sorted : reduceSorted [c6d1, c6d2] = [c6d1, c6d2] := by
  simp [reduceSorted, sortDescBy, insertDescBy, c6_usd_d1, c6_usd_d2]

theorem c6_preshrink : reducePreShrink [c6d1, c6d2] [] 135 = [c6d1] := by
  have hest : estimate_tokens [c6d1, c6d2] [] > 135 := by decide
  rw [reducePreShrink, c6_sorted, c6_keep]
  simp [List.filter, greedyAdd, c6d1_id, c6d2_id, hest]

/-- Witness for the amended C6: an under-cap list is returned unchanged, and
at a concrete over-cap input the must-keep event `c6d1` (first/last for its
wallet) survives into the reduced output since the fallback shrink does not
fire. -/
theorem C6_reduction_amended_witness :
    reduce_events [c6SmallEvent] [] 1000 = ([c6SmallEvent], []) ∧
    c6d1 ∈ (reduce_events [c6d1, c6d2] [] 135).1 := by
  constructor
  · exact (C6_reduction_amended [c6SmallEvent] [] 1000).1 (by decide)
  · exact (C6_reduction_amended [c6d1, c6d2] [] 135).2.2 (by decide)
      (by simp) (by rw [c6_preshrink]; decide) c6d1 (by simp)
      (by rw [c6_keep]; decide)
